import Mathlib

/-!
Verification of the sphaira storage abstraction (`fs.cpp`) and streaming
hash engine (`hasher.cpp`) against their natural-language specification.

Paths are modelled as `String` (the C code uses fixed-capacity
null-terminated `char` buffers; capacity handling is modelled explicitly
where a claim depends on it).  Result codes are `Nat`; the concrete
numeric values of the project-specific codes are representative distinct
constants (the header defining them is outside the modelled sources; only
their distinctness and the success value 0 matter).  Backend primitives
(the libnx `fsFs*` service calls and the newlib/POSIX syscalls) are
abstract parameters gathered in backend records, and every operation
additionally returns the list of backend calls it performed, so that
"performs no I/O" is expressible as an empty call trace.
-/

/-- Success result code (`R_SUCCEED`). -/
def R_SUCCESS : Nat := 0

/-- Dedicated read-only policy violation result (`Result_FsReadOnly`). -/
def Result_FsReadOnly : Nat := 1001

/-- `FsError_PathAlreadyExists` (libnx result, module 2 description 2). -/
def FsError_PathAlreadyExists : Nat := 1026

/-- `Result_FsUnknownStdioError`. -/
def Result_FsUnknownStdioError : Nat := 1002

/-- `Result_FsNotActive`. -/
def Result_FsNotActive : Nat := 1003

/-- `Result_FsFailedStdioStat`. -/
def Result_FsFailedStdioStat : Nat := 1004

/-- `Result_FsFailedStdioOpendir`. -/
def Result_FsFailedStdioOpendir : Nat := 1005

/-- Cancellation result returned by the transfer loop when stopped. -/
def Result_TransferCancelled : Nat := 1006

/-- POSIX `EEXIST` errno value. -/
def EEXIST : Nat := 17

/-- `FsOpenMode_Read` (libnx). -/
def FsOpenMode_Read : Nat := 1

/-- `FsOpenMode_Write` (libnx). -/
def FsOpenMode_Write : Nat := 2

/-- `FsCreateOption_BigFile` (libnx). -/
def FsCreateOption_BigFile : Nat := 1

/-- `FsDirOpenMode_ReadDirs` (libnx). -/
def FsDirOpenMode_ReadDirs : Nat := 1

/-- `FsDirOpenMode_ReadFiles` (libnx). -/
def FsDirOpenMode_ReadFiles : Nat := 2

/-- `FsDirEntryType_Dir` (libnx). -/
def FsDirEntryType_Dir : Nat := 0

/-- `FsDirEntryType_File` (libnx). -/
def FsDirEntryType_File : Nat := 1

/-- `DT_UNKNOWN` (dirent). -/
def DT_UNKNOWN : Nat := 0

/-- `DT_DIR` (dirent). -/
def DT_DIR : Nat := 4

/-- `DT_REG` (dirent). -/
def DT_REG : Nat := 8

/-- `DT_LNK` (dirent). -/
def DT_LNK : Nat := 10

/-- `READONLY_ROOT_FOLDERS` table from `fs.cpp`: protected directory
subtrees (matched as path prefixes). -/
def READONLY_ROOT_FOLDERS : List String := [
  "/atmosphere/automatic_backups",
  "/bootloader/res",
  "/bootloader/sys",
  "/backup",
  "/Nintendo",
  "/Nintendo/Contents",
  "/Nintendo/save",
  "/emuMMC",
  "/warmboot_mariko"]

/-- `READONLY_FILES` table from `fs.cpp`: individually protected exact
paths. -/
def READONLY_FILES : List String := [
  "/",
  "/atmosphere",
  "/atmosphere/hbl.nsp",
  "/atmosphere/package3",
  "/atmosphere/reboot_payload.bin",
  "/atmosphere/stratosphere.romfs",
  "/bootloader",
  "/bootloader/hekate_ipl.ini",
  "/switch",
  "/hbmenu.nro",
  "/payload.bin",
  "/boot.dat",
  "/license.dat",
  "/switch/prod.keys",
  "/switch/title.keys",
  "/switch/reboot_to_payload.nro"]

/-- `starts_with p q`: `p` starts with `q` (modelling
`std::string_view::starts_with`, on the character lists). -/
def starts_with (path q : String) : Bool :=
  q.toList.isPrefixOf path.toList

/-- `is_read_only_root`: the path starts with some protected-root entry. -/
def is_read_only_root (path : String) : Bool :=
  READONLY_ROOT_FOLDERS.any (fun p => starts_with path p)

/-- `is_read_only_file`: the path equals some protected exact path. -/
def is_read_only_file (path : String) : Bool :=
  READONLY_FILES.any (fun p => path.toList == p.toList)

/-- `is_read_only`: root-protected or exact-path-protected. -/
def is_read_only (path : String) : Bool :=
  if is_read_only_root path then true
  else if is_read_only_file path then true
  else false

/-- Capacity of an `FsPath` buffer (`FS_MAX_PATH` = 0x301 bytes,
including the terminating NUL). -/
def FS_MAX_PATH : Nat := 769

/-- The leading-slash stripping loop at the top of `AppendPath`
(`while (file_path[0] == '/') file_path++`). -/
def strip_leading (file_path : String) : List Char :=
  file_path.toList.dropWhile (fun c => c == '/')

/-- `fs::AppendPath`: strip leading slashes from the file part, then join
with the root, inserting a `/` only when the root is nonempty and does
not already end in `/`; `snprintf` truncates the result to the buffer
capacity minus the NUL terminator. -/
def AppendPath (root_path file_path : String) : String :=
  let f := strip_leading file_path
  let r := root_path.toList
  let joined :=
    if r = [] then f
    else if r.getLast? = some '/' then r ++ f
    else r ++ '/' :: f
  String.mk (joined.take (FS_MAX_PATH - 1))

/-- Observable outcome of one `std::fread` call on the POSIX stream:
bytes delivered, and the stream's end-of-file and error indicators
afterwards. -/
structure FreadOut where
  bytesRead : Nat
  eof : Bool
  err : Bool

/-- The POSIX branch of `File::Read`: seek to `off` when needed, `fread`,
and treat a short read as an error only when the stream reports an error
without end-of-file.  Returns (result, `*bytes_read`, new tracked
offset `m_stdio_off`). -/
def File_Read_stdio (off : Int) (read_size : Nat) (o : FreadOut) :
    Nat × Nat × Int :=
  if o.bytesRead < read_size && (!o.eof && o.err) then
    (Result_FsUnknownStdioError, o.bytesRead, off)
  else
    (R_SUCCESS, o.bytesRead, off + o.bytesRead)

/-- `MemSource::Read` from `hasher.cpp`: clamp the requested range to the
borrowed span; out-of-range or negative offsets report zero bytes read;
never fails.  Returns (result, `*bytes_read`, bytes copied). -/
def MemSource_Read (data : List Nat) (off : Int) (size : Nat) :
    Nat × Nat × List Nat :=
  if off < 0 then (R_SUCCESS, 0, [])
  else
    let avail : Int := (data.length : Int) - off
    if avail ≤ 0 then (R_SUCCESS, 0, [])
    else
      let to_read : Int := min (size : Int) avail
      (R_SUCCESS, to_read.toNat, (data.drop off.toNat).take to_read.toNat)

/-- One observable backend call (libnx `fsFs*`/`fsFile*` service calls,
or newlib/POSIX syscalls and stdio calls).  Operations return the list of
such calls they performed; an empty list means no I/O was performed. -/
inductive Call where
  | fsCreateFile (path : String) (size : Nat) (opt : Nat)
  | fsCreateDir (path : String)
  | fsDeleteFile (path : String)
  | fsDeleteDir (path : String)
  | fsDeleteDirRec (path : String)
  | fsRenameFile (src dst : String)
  | fsRenameDir (src dst : String)
  | fsCommit
  | fsOpenFile (path : String) (mode : Nat)
  | fsFileGetSize (path : String)
  | fsFileRead (path : String) (off : Int) (size : Int)
  | fsFileSetSize (path : String) (size : Int)
  | fsFileWrite (path : String) (size : Nat)
  | sOpen (path : String)
  | sFtruncate (path : String) (size : Nat)
  | sMkdir (path : String)
  | sUnlink (path : String)
  | sRmdir (path : String)
  | sRename (src dst : String)
  | sRemoveRec (path : String)
  | sFopen (path mode : String)
  | sFseekEnd (path : String)
  | sFtell (path : String)
  | sFread (path : String) (n : Nat)
  | sFwrite (path : String) (n : Nat)
  deriving DecidableEq

/-- Abstract behaviour of the native storage service (libnx `fsFs*`,
`fsFile*`): each primitive's result as a function of its arguments.
File-handle primitives are keyed by the path the handle was opened on
(at most one file is open at a time in the modelled flows). -/
structure NativeBackend where
  createFile : String → Nat → Nat → Nat
  createDir : String → Nat
  deleteFile : String → Nat
  deleteDir : String → Nat
  deleteDirRec : String → Nat
  renameFile : String → String → Nat
  renameDir : String → String → Nat
  openFsResult : Nat
  openFile : String → Nat → Nat
  fileGetSize : String → Nat × Int
  fileRead : String → Int → Int → Nat × List Nat
  fileSetSize : String → Int → Nat
  fileWrite : String → Nat → Nat

/-- Abstract behaviour of the POSIX layer (newlib syscalls and stdio).
`openErr`/`mkdirErr` return `none` on success and `some errno` on
failure; `removeRecRet` is the return value of the recursive-delete
helper `remove_dir_recursive_impl` (its internals are not consulted by
any claim); `lastResult` is `fsdevGetLastResult()`. -/
structure StdioBackend where
  openErr : String → Option Nat
  ftruncateOk : String → Nat → Bool
  mkdirErr : String → Option Nat
  unlinkOk : String → Bool
  rmdirOk : String → Bool
  renameOk : String → String → Bool
  removeRecRet : String → Int
  fopenOk : String → String → Bool
  fseekEndOk : String → Bool
  ftellRet : String → Int
  freadData : String → Nat → List Nat
  ferror : String → Bool
  fwriteCount : String → Nat → Nat
  lastResult : Nat

/-- The stdio error path `R_TRY(fsdevGetLastResult()); return
Result_FsUnknownStdioError;`: surface the fsdev result if it is an
error, else the catch-all. -/
def stdio_fail (b : StdioBackend) : Nat :=
  if b.lastResult ≠ R_SUCCESS then b.lastResult else Result_FsUnknownStdioError

/-- The big-file option adjustment in native `CreateFile`: sizes of at
least 4 GiB get `FsCreateOption_BigFile` or-ed in. -/
def effective_option (size opt : Nat) : Nat :=
  if 4 * 1024 * 1024 * 1024 ≤ size then opt ||| FsCreateOption_BigFile else opt

/-- Body of native `fs::CreateFile` after the policy gate:
`fsFsCreateFile` then `fsFsCommit` on success. -/
def CreateFile_native_go (b : NativeBackend) (path : String) (size opt : Nat) :
    Nat × List Call :=
  let opt := effective_option size opt
  let rc := b.createFile path size opt
  if rc = R_SUCCESS then (R_SUCCESS, [.fsCreateFile path size opt, .fsCommit])
  else (rc, [.fsCreateFile path size opt])

/-- Native `fs::CreateFile`: policy gate on `is_read_only_root`, then the
backend call. -/
def CreateFile_native (b : NativeBackend) (path : String) (size opt : Nat)
    (ignore_read_only : Bool) : Nat × List Call :=
  if !ignore_read_only && is_read_only_root path then (Result_FsReadOnly, [])
  else CreateFile_native_go b path size opt

/-- Body of native `fs::CreateDirectory` after the policy gate. -/
def CreateDirectory_native_go (b : NativeBackend) (path : String) :
    Nat × List Call :=
  let rc := b.createDir path
  if rc = R_SUCCESS then (R_SUCCESS, [.fsCreateDir path, .fsCommit])
  else (rc, [.fsCreateDir path])

/-- Native `fs::CreateDirectory`. -/
def CreateDirectory_native (b : NativeBackend) (path : String)
    (ignore_read_only : Bool) : Nat × List Call :=
  if !ignore_read_only && is_read_only_root path then (Result_FsReadOnly, [])
  else CreateDirectory_native_go b path

/-- Split a character list at `/` separators (`std::views::split`);
segments keep their characters, separators are dropped, so consecutive
slashes produce empty segments (skipped by the creation loop). -/
def splitSlash : List Char → List (List Char)
  | [] => [[]]
  | c :: rest =>
    if c = '/' then [] :: splitSlash rest
    else
      match splitSlash rest with
      | [] => [[c]]
      | s :: ss => (c :: s) :: ss

/-- `strchr(cs, ':')`: index of the first colon, if any. -/
def colon_idx : List Char → Option Nat
  | [] => none
  | c :: rest => if c = ':' then some 0 else (colon_idx rest).map (· + 1)

/-- The `strchr(_path, ':')` drive-marker handling in
`CreateDirectoryRecursively`: with a colon at index `i` the initial
buffer is the first `i+1` characters followed by `/` and the remaining
view starts after the colon; otherwise the buffer starts as `"/"` and
the whole path is walked. -/
def colon_split (cs : List Char) : List Char × List Char :=
  match colon_idx cs with
  | some i => (cs.take (i + 1) ++ ['/'], cs.drop (i + 1))
  | none => (['/'], cs)

/-- `strrchr(path, '/')`: index of the last slash, if any. -/
def last_slash_idx : List Char → Option Nat
  | [] => none
  | c :: rest =>
    match last_slash_idx rest with
    | some i => some (i + 1)
    | none => if c = '/' then some 0 else none

/-- The per-component creation loop of `CreateDirectoryRecursively`,
generic in the (already policy-gated) single-directory creation
operation `mk` of the chosen backend, which threads a state `σ` (a call
trace, or a modelled filesystem).  Empty segments are skipped;
"already exists" is tolerated; any other failure aborts with that
error. -/
def cdr_loop {σ : Type} (mk : σ → String → Nat × σ) (built : List Char)
    (comps : List (List Char)) (s : σ) : Nat × σ :=
  match comps with
  | [] => (R_SUCCESS, s)
  | c :: rest =>
    if c = [] then cdr_loop mk built rest s
    else
      let p := built ++ c
      let r := mk s (String.mk p)
      if r.1 ≠ R_SUCCESS ∧ r.1 ≠ FsError_PathAlreadyExists then (r.1, r.2)
      else cdr_loop mk (p ++ ['/']) rest r.2

/-- `fs::CreateDirectoryRecursively` (the `FsFileSystem*` overload),
generic in the backend's gated `CreateDirectory`: policy gate, then a
first attempt on the full path (success or "already exists" both count
as success), then the component-by-component walk. -/
def CreateDirectoryRecursively_core {σ : Type} (mk : σ → String → Nat × σ)
    (ignore_read_only : Bool) (s : σ) (path : String) : Nat × σ :=
  if !ignore_read_only && is_read_only_root path then (Result_FsReadOnly, s)
  else
    let r := mk s path
    if r.1 = R_SUCCESS ∨ r.1 = FsError_PathAlreadyExists then (R_SUCCESS, r.2)
    else
      let pv := colon_split path.toList
      cdr_loop mk pv.1 (splitSlash pv.2) r.2

/-- Trace-collecting instantiation of the native gated
`CreateDirectory` for the recursive walk. -/
def mk_native (b : NativeBackend) (ignore_read_only : Bool)
    (tr : List Call) (p : String) : Nat × List Call :=
  let r := CreateDirectory_native b p ignore_read_only
  (r.1, tr ++ r.2)

/-- Native `fs::CreateDirectoryRecursively`. -/
def CreateDirectoryRecursively_native (b : NativeBackend) (path : String)
    (ignore_read_only : Bool) : Nat × List Call :=
  CreateDirectoryRecursively_core (mk_native b ignore_read_only)
    ignore_read_only [] path

/-- `fs::CreateDirectoryRecursivelyWithPath`, generic in the backend:
policy gate, strip the final component (a file name), then recursive
creation of the remaining chain; success without I/O when the path has
no slash. -/
def CreateDirectoryRecursivelyWithPath_core {σ : Type}
    (mk : σ → String → Nat × σ) (ignore_read_only : Bool) (s : σ)
    (path : String) : Nat × σ :=
  if !ignore_read_only && is_read_only_root path then (Result_FsReadOnly, s)
  else
    match last_slash_idx path.toList with
    | none => (R_SUCCESS, s)
    | some i =>
      CreateDirectoryRecursively_core mk ignore_read_only s
        (String.mk (path.toList.take i))

/-- Native `fs::CreateDirectoryRecursivelyWithPath`. -/
def CreateDirectoryRecursivelyWithPath_native (b : NativeBackend)
    (path : String) (ignore_read_only : Bool) : Nat × List Call :=
  CreateDirectoryRecursivelyWithPath_core (mk_native b ignore_read_only)
    ignore_read_only [] path

/-- Body of native `fs::DeleteFile` after the policy gate. -/
def DeleteFile_native_go (b : NativeBackend) (path : String) :
    Nat × List Call :=
  let rc := b.deleteFile path
  if rc = R_SUCCESS then (R_SUCCESS, [.fsDeleteFile path, .fsCommit])
  else (rc, [.fsDeleteFile path])

/-- Native `fs::DeleteFile`: gate on the full `is_read_only` predicate. -/
def DeleteFile_native (b : NativeBackend) (path : String)
    (ignore_read_only : Bool) : Nat × List Call :=
  if !ignore_read_only && is_read_only path then (Result_FsReadOnly, [])
  else DeleteFile_native_go b path

/-- Body of native `fs::DeleteDirectory` after the policy gate. -/
def DeleteDirectory_native_go (b : NativeBackend) (path : String) :
    Nat × List Call :=
  let rc := b.deleteDir path
  if rc = R_SUCCESS then (R_SUCCESS, [.fsDeleteDir path, .fsCommit])
  else (rc, [.fsDeleteDir path])

/-- Native `fs::DeleteDirectory`. -/
def DeleteDirectory_native (b : NativeBackend) (path : String)
    (ignore_read_only : Bool) : Nat × List Call :=
  if !ignore_read_only && is_read_only path then (Result_FsReadOnly, [])
  else DeleteDirectory_native_go b path

/-- Body of native `fs::DeleteDirectoryRecursively` after the gate. -/
def DeleteDirectoryRecursively_native_go (b : NativeBackend) (path : String) :
    Nat × List Call :=
  let rc := b.deleteDirRec path
  if rc = R_SUCCESS then (R_SUCCESS, [.fsDeleteDirRec path, .fsCommit])
  else (rc, [.fsDeleteDirRec path])

/-- Native `fs::DeleteDirectoryRecursively`. -/
def DeleteDirectoryRecursively_native (b : NativeBackend) (path : String)
    (ignore_read_only : Bool) : Nat × List Call :=
  if !ignore_read_only && is_read_only path then (Result_FsReadOnly, [])
  else DeleteDirectoryRecursively_native_go b path

/-- Body of native `fs::RenameFile` after both policy gates. -/
def RenameFile_native_go (b : NativeBackend) (src dst : String) :
    Nat × List Call :=
  let rc := b.renameFile src dst
  if rc = R_SUCCESS then (R_SUCCESS, [.fsRenameFile src dst, .fsCommit])
  else (rc, [.fsRenameFile src dst])

/-- Native `fs::RenameFile`: the policy is checked on both the source
and the destination path. -/
def RenameFile_native (b : NativeBackend) (src dst : String)
    (ignore_read_only : Bool) : Nat × List Call :=
  if !ignore_read_only && is_read_only src then (Result_FsReadOnly, [])
  else if !ignore_read_only && is_read_only dst then (Result_FsReadOnly, [])
  else RenameFile_native_go b src dst

/-- Body of native `fs::RenameDirectory` after both policy gates. -/
def RenameDirectory_native_go (b : NativeBackend) (src dst : String) :
    Nat × List Call :=
  let rc := b.renameDir src dst
  if rc = R_SUCCESS then (R_SUCCESS, [.fsRenameDir src dst, .fsCommit])
  else (rc, [.fsRenameDir src dst])

/-- Native `fs::RenameDirectory`. -/
def RenameDirectory_native (b : NativeBackend) (src dst : String)
    (ignore_read_only : Bool) : Nat × List Call :=
  if !ignore_read_only && is_read_only src then (Result_FsReadOnly, [])
  else if !ignore_read_only && is_read_only dst then (Result_FsReadOnly, [])
  else RenameDirectory_native_go b src dst

/-- Native `fs::read_entire_file`: open, size query (negative size is the
stdio catch-all error), full read, and a short read is the anonymous
error `1`.  Returns (result, data, trace). -/
def read_entire_file_native (b : NativeBackend) (path : String) :
    Nat × List Nat × List Call :=
  if b.openFsResult ≠ R_SUCCESS then (b.openFsResult, [], [])
  else
    let rcO := b.openFile path FsOpenMode_Read
    let t1 : List Call := [.fsOpenFile path FsOpenMode_Read]
    if rcO ≠ R_SUCCESS then (rcO, [], t1)
    else
      let rs := b.fileGetSize path
      let t2 := t1 ++ [.fsFileGetSize path]
      if rs.1 ≠ R_SUCCESS then (rs.1, [], t2)
      else if rs.2 < 0 then (Result_FsUnknownStdioError, [], t2)
      else
        let rr := b.fileRead path 0 rs.2
        let t3 := t2 ++ [.fsFileRead path 0 rs.2]
        if rr.1 ≠ R_SUCCESS then (rr.1, [], t3)
        else if (rr.2.length : Int) ≠ rs.2 then (1, [], t3)
        else (R_SUCCESS, rr.2, t3)

/-- Body of native `fs::write_entire_file` after the policy gate: create
the target (tolerating "already exists", under the same override flag),
open for write, set the size, write everything. -/
def write_entire_file_native_go (b : NativeBackend) (path : String)
    (data : List Nat) (ignore_read_only : Bool) : Nat × List Call :=
  if b.openFsResult ≠ R_SUCCESS then (b.openFsResult, [])
  else
    let rc := CreateFile_native b path data.length 0 ignore_read_only
    if rc.1 ≠ R_SUCCESS ∧ rc.1 ≠ FsError_PathAlreadyExists then (rc.1, rc.2)
    else
      let rcO := b.openFile path FsOpenMode_Write
      let t := rc.2 ++ [Call.fsOpenFile path FsOpenMode_Write]
      if rcO ≠ R_SUCCESS then (rcO, t)
      else
        let rcS := b.fileSetSize path (data.length : Int)
        let t := t ++ [Call.fsFileSetSize path (data.length : Int)]
        if rcS ≠ R_SUCCESS then (rcS, t)
        else
          let rcW := b.fileWrite path data.length
          let t := t ++ [Call.fsFileWrite path data.length]
          if rcW ≠ R_SUCCESS then (rcW, t) else (R_SUCCESS, t)

/-- Native `fs::write_entire_file`: gate on the full `is_read_only`
predicate, then the body. -/
def write_entire_file_native (b : NativeBackend) (path : String)
    (data : List Nat) (ignore_read_only : Bool) : Nat × List Call :=
  if !ignore_read_only && is_read_only path then (Result_FsReadOnly, [])
  else write_entire_file_native_go b path data ignore_read_only

/-- Body of native `fs::copy_entire_file` after the destination-only
policy gate: read the whole source, then write it to the destination. -/
def copy_entire_file_native_go (b : NativeBackend) (dst src : String)
    (ignore_read_only : Bool) : Nat × List Call :=
  let r := read_entire_file_native b src
  if r.1 ≠ R_SUCCESS then (r.1, r.2.2)
  else
    let w := write_entire_file_native b dst r.2.1 ignore_read_only
    (w.1, r.2.2 ++ w.2)

/-- Native `fs::copy_entire_file`: the policy gate consults only the
destination path. -/
def copy_entire_file_native (b : NativeBackend) (dst src : String)
    (ignore_read_only : Bool) : Nat × List Call :=
  if !ignore_read_only && is_read_only dst then (Result_FsReadOnly, [])
  else copy_entire_file_native_go b dst src ignore_read_only

/-- Body of stdio `fs::CreateFile` after the policy gate:
`open(O_WRONLY|O_CREAT)`, mapping `EEXIST` to the distinguishable
"already exists" result, then `ftruncate` when a size was requested. -/
def CreateFile_stdio_go (b : StdioBackend) (path : String) (size : Nat) :
    Nat × List Call :=
  match b.openErr path with
  | some e =>
    if e = EEXIST then (FsError_PathAlreadyExists, [.sOpen path])
    else (stdio_fail b, [.sOpen path])
  | none =>
    if size ≠ 0 then
      if b.ftruncateOk path size then (R_SUCCESS, [.sOpen path, .sFtruncate path size])
      else (Result_FsUnknownStdioError, [.sOpen path, .sFtruncate path size])
    else (R_SUCCESS, [.sOpen path])

/-- Stdio `fs::CreateFile` (the `option` argument is accepted but unused
by the POSIX implementation). -/
def CreateFile_stdio (b : StdioBackend) (path : String) (size _opt : Nat)
    (ignore_read_only : Bool) : Nat × List Call :=
  if !ignore_read_only && is_read_only_root path then (Result_FsReadOnly, [])
  else CreateFile_stdio_go b path size

/-- Body of stdio `fs::CreateDirectory` after the policy gate. -/
def CreateDirectory_stdio_go (b : StdioBackend) (path : String) :
    Nat × List Call :=
  match b.mkdirErr path with
  | some e =>
    if e = EEXIST then (FsError_PathAlreadyExists, [.sMkdir path])
    else (stdio_fail b, [.sMkdir path])
  | none => (R_SUCCESS, [.sMkdir path])

/-- Stdio `fs::CreateDirectory`. -/
def CreateDirectory_stdio (b : StdioBackend) (path : String)
    (ignore_read_only : Bool) : Nat × List Call :=
  if !ignore_read_only && is_read_only_root path then (Result_FsReadOnly, [])
  else CreateDirectory_stdio_go b path

/-- Trace-collecting instantiation of the stdio gated `CreateDirectory`
for the recursive walk. -/
def mk_stdio (b : StdioBackend) (ignore_read_only : Bool)
    (tr : List Call) (p : String) : Nat × List Call :=
  let r := CreateDirectory_stdio b p ignore_read_only
  (r.1, tr ++ r.2)

/-- Stdio `fs::CreateDirectoryRecursively`: its own policy gate, then the
shared walk (which gates again, identically). -/
def CreateDirectoryRecursively_stdio (b : StdioBackend) (path : String)
    (ignore_read_only : Bool) : Nat × List Call :=
  if !ignore_read_only && is_read_only_root path then (Result_FsReadOnly, [])
  else
    CreateDirectoryRecursively_core (mk_stdio b ignore_read_only)
      ignore_read_only [] path

/-- Stdio `fs::CreateDirectoryRecursivelyWithPath`. -/
def CreateDirectoryRecursivelyWithPath_stdio (b : StdioBackend)
    (path : String) (ignore_read_only : Bool) : Nat × List Call :=
  if !ignore_read_only && is_read_only_root path then (Result_FsReadOnly, [])
  else
    CreateDirectoryRecursivelyWithPath_core (mk_stdio b ignore_read_only)
      ignore_read_only [] path

/-- Body of stdio `fs::DeleteFile` after the policy gate. -/
def DeleteFile_stdio_go (b : StdioBackend) (path : String) : Nat × List Call :=
  if b.unlinkOk path then (R_SUCCESS, [.sUnlink path])
  else (stdio_fail b, [.sUnlink path])

/-- Stdio `fs::DeleteFile`. -/
def DeleteFile_stdio (b : StdioBackend) (path : String)
    (ignore_read_only : Bool) : Nat × List Call :=
  if !ignore_read_only && is_read_only path then (Result_FsReadOnly, [])
  else DeleteFile_stdio_go b path

/-- Body of stdio `fs::DeleteDirectory` after the policy gate. -/
def DeleteDirectory_stdio_go (b : StdioBackend) (path : String) :
    Nat × List Call :=
  if b.rmdirOk path then (R_SUCCESS, [.sRmdir path])
  else (stdio_fail b, [.sRmdir path])

/-- Stdio `fs::DeleteDirectory`. -/
def DeleteDirectory_stdio (b : StdioBackend) (path : String)
    (ignore_read_only : Bool) : Nat × List Call :=
  if !ignore_read_only && is_read_only path then (Result_FsReadOnly, [])
  else DeleteDirectory_stdio_go b path

/-- Body of stdio `fs::DeleteDirectoryRecursively` after the gate: the
recursive walker helper, whose nonzero return maps to the stdio error. -/
def DeleteDirectoryRecursively_stdio_go (b : StdioBackend) (path : String) :
    Nat × List Call :=
  if b.removeRecRet path ≠ 0 then (stdio_fail b, [.sRemoveRec path])
  else (R_SUCCESS, [.sRemoveRec path])

/-- Stdio `fs::DeleteDirectoryRecursively`. -/
def DeleteDirectoryRecursively_stdio (b : StdioBackend) (path : String)
    (ignore_read_only : Bool) : Nat × List Call :=
  if !ignore_read_only && is_read_only path then (Result_FsReadOnly, [])
  else DeleteDirectoryRecursively_stdio_go b path

/-- Body of stdio `fs::RenameFile` after both policy gates. -/
def RenameFile_stdio_go (b : StdioBackend) (src dst : String) :
    Nat × List Call :=
  if b.renameOk src dst then (R_SUCCESS, [.sRename src dst])
  else (stdio_fail b, [.sRename src dst])

/-- Stdio `fs::RenameFile`: policy checked on both paths. -/
def RenameFile_stdio (b : StdioBackend) (src dst : String)
    (ignore_read_only : Bool) : Nat × List Call :=
  if !ignore_read_only && is_read_only src then (Result_FsReadOnly, [])
  else if !ignore_read_only && is_read_only dst then (Result_FsReadOnly, [])
  else RenameFile_stdio_go b src dst

/-- Stdio `fs::RenameDirectory`: both gates, then delegation to
`RenameFile` (the POSIX `rename` treats both uniformly). -/
def RenameDirectory_stdio (b : StdioBackend) (src dst : String)
    (ignore_read_only : Bool) : Nat × List Call :=
  if !ignore_read_only && is_read_only src then (Result_FsReadOnly, [])
  else if !ignore_read_only && is_read_only dst then (Result_FsReadOnly, [])
  else RenameFile_stdio b src dst ignore_read_only

/-- Stdio `fs::read_entire_file`: fopen, seek to end, tell, rewind, one
bulk fread; a short read with the error flag set fails, a short read at
end-of-file is tolerated (the buffer is shrunk).  Returns (result,
data, trace). -/
def read_entire_file_stdio (b : StdioBackend) (path : String) :
    Nat × List Nat × List Call :=
  if !(b.fopenOk path "rb") then (stdio_fail b, [], [.sFopen path "rb"])
  else
    let t1 : List Call := [.sFopen path "rb"]
    if !(b.fseekEndOk path) then (stdio_fail b, [], t1 ++ [.sFseekEnd path])
    else
      let pos := b.ftellRet path
      let t2 := t1 ++ [Call.sFseekEnd path, Call.sFtell path]
      if pos < 0 then (stdio_fail b, [], t2)
      else
        let size := pos.toNat
        let data := b.freadData path size
        let t3 := t2 ++ [Call.sFread path size]
        if data.length ≠ size then
          if b.ferror path then (stdio_fail b, [], t3)
          else (R_SUCCESS, data, t3)
        else (R_SUCCESS, data, t3)

/-- Body of stdio `fs::write_entire_file` after the policy gate:
`fopen("wb")` (which creates/truncates), then one bulk fwrite; a short
write is an error. -/
def write_entire_file_stdio_go (b : StdioBackend) (path : String)
    (data : List Nat) : Nat × List Call :=
  if !(b.fopenOk path "wb") then (stdio_fail b, [.sFopen path "wb"])
  else
    let t : List Call := [.sFopen path "wb", .sFwrite path data.length]
    if b.fwriteCount path data.length ≠ data.length then (stdio_fail b, t)
    else (R_SUCCESS, t)

/-- Stdio `fs::write_entire_file`. -/
def write_entire_file_stdio (b : StdioBackend) (path : String)
    (data : List Nat) (ignore_read_only : Bool) : Nat × List Call :=
  if !ignore_read_only && is_read_only path then (Result_FsReadOnly, [])
  else write_entire_file_stdio_go b path data

/-- Body of stdio `fs::copy_entire_file` after the destination-only
policy gate. -/
def copy_entire_file_stdio_go (b : StdioBackend) (dst src : String)
    (ignore_read_only : Bool) : Nat × List Call :=
  let r := read_entire_file_stdio b src
  if r.1 ≠ R_SUCCESS then (r.1, r.2.2)
  else
    let w := write_entire_file_stdio b dst r.2.1 ignore_read_only
    (w.1, r.2.2 ++ w.2)

/-- Stdio `fs::copy_entire_file`: the policy gate consults only the
destination path. -/
def copy_entire_file_stdio (b : StdioBackend) (dst src : String)
    (ignore_read_only : Bool) : Nat × List Call :=
  if !ignore_read_only && is_read_only dst then (Result_FsReadOnly, [])
  else copy_entire_file_stdio_go b dst src ignore_read_only

/-- A fully successful native backend (every primitive reports success),
used to witness the theorems at concrete inputs. -/
def nb0 : NativeBackend where
  createFile := fun _ _ _ => R_SUCCESS
  createDir := fun _ => R_SUCCESS
  deleteFile := fun _ => R_SUCCESS
  deleteDir := fun _ => R_SUCCESS
  deleteDirRec := fun _ => R_SUCCESS
  renameFile := fun _ _ => R_SUCCESS
  renameDir := fun _ _ => R_SUCCESS
  openFsResult := R_SUCCESS
  openFile := fun _ _ => R_SUCCESS
  fileGetSize := fun _ => (R_SUCCESS, 0)
  fileRead := fun _ _ _ => (R_SUCCESS, [])
  fileSetSize := fun _ _ => R_SUCCESS
  fileWrite := fun _ _ => R_SUCCESS

/-- A fully successful stdio backend. -/
def sb0 : StdioBackend where
  openErr := fun _ => none
  ftruncateOk := fun _ _ => true
  mkdirErr := fun _ => none
  unlinkOk := fun _ => true
  rmdirOk := fun _ => true
  renameOk := fun _ _ => true
  removeRecRet := fun _ => 0
  fopenOk := fun _ _ => true
  fseekEndOk := fun _ => true
  ftellRet := fun _ => 0
  freadData := fun _ n => List.replicate n 0
  ferror := fun _ => false
  fwriteCount := fun _ n => n
  lastResult := R_SUCCESS

/-- A native backend whose `fsFsCreateFile` reports "already exists". -/
def nbAE : NativeBackend :=
  { nb0 with createFile := fun _ _ _ => FsError_PathAlreadyExists }

/-- A stdio backend whose `open` fails with `EEXIST`. -/
def sbAE : StdioBackend :=
  { sb0 with openErr := fun _ => some EEXIST }

/-- A raw `readdir` entry: name and `d_type` indicator. -/
structure RawDirent where
  name : String
  dtype : Nat
  deriving DecidableEq

/-- A produced `FsDirectoryEntry`: name and type tag. -/
structure DirEntryM where
  name : String
  type : Nat
  deriving DecidableEq

/-- Result of an `lstat` on a child path: failed, directory, regular
file, or some other kind. -/
inductive LstatKind where
  | dir
  | reg
  | other
  deriving DecidableEq

/-- Child-path construction used by the stdio directory helpers
(`child = path; if (child.back() != '/') child.push_back('/');
child += name`). -/
def append_child (path name : String) : String :=
  String.mk (path.toList ++
    (if path.toList.getLast? = some '/' then [] else ['/']) ++ name.toList)

/-- The accumulation loop of the POSIX branch of `Dir::Read`: skip
`.`/`..`, apply the open-mode filter to known types, tag an entry with
unknown `d_type` as a file (the code has no full path available and
performs no metadata lookup), and stop once `max_entries` entries are
collected. -/
def Dir_Read_stdio_go (mode max_entries : Nat) (acc : List DirEntryM) :
    List RawDirent → List DirEntryM
  | [] => acc
  | d :: rest =>
    if d.name = "." ∨ d.name = ".." then
      Dir_Read_stdio_go mode max_entries acc rest
    else
      let t? : Option Nat :=
        if d.dtype = DT_DIR then
          if mode &&& FsDirOpenMode_ReadDirs = 0 then none
          else some FsDirEntryType_Dir
        else if d.dtype = DT_REG then
          if mode &&& FsDirOpenMode_ReadFiles = 0 then none
          else some FsDirEntryType_File
        else some FsDirEntryType_File
      match t? with
      | none => Dir_Read_stdio_go mode max_entries acc rest
      | some t =>
        let acc := acc ++ [⟨d.name, t⟩]
        if max_entries ≤ acc.length then acc
        else Dir_Read_stdio_go mode max_entries acc rest

/-- POSIX branch of `Dir::Read`: always succeeds; returns the collected
entries (`*total_entries` is their number). -/
def Dir_Read_stdio (mode max_entries : Nat) (stream : List RawDirent) :
    Nat × List DirEntryM :=
  (R_SUCCESS, Dir_Read_stdio_go mode max_entries [] stream)

/-- POSIX branch of `Dir::ReadAll`: like `Dir::Read` without a cap, but
an entry with unknown `d_type` is skipped (with a logged warning) and
the listing continues. -/
def Dir_ReadAll_stdio (mode : Nat) : List RawDirent → List DirEntryM
  | [] => []
  | d :: rest =>
    if d.name = "." ∨ d.name = ".." then Dir_ReadAll_stdio mode rest
    else if d.dtype = DT_DIR then
      if mode &&& FsDirOpenMode_ReadDirs = 0 then Dir_ReadAll_stdio mode rest
      else ⟨d.name, FsDirEntryType_Dir⟩ :: Dir_ReadAll_stdio mode rest
    else if d.dtype = DT_REG then
      if mode &&& FsDirOpenMode_ReadFiles = 0 then Dir_ReadAll_stdio mode rest
      else ⟨d.name, FsDirEntryType_File⟩ :: Dir_ReadAll_stdio mode rest
    else Dir_ReadAll_stdio mode rest

/-- POSIX branch of `DirGetEntryCount`: classify each entry, resolving
an unknown `d_type` through `lstat` on the built child path; when the
lookup fails (or yields neither a directory nor a regular file) the
entry is skipped and counting continues.  Returns (files, dirs). -/
def DirGetEntryCount_stdio (mode : Nat) (path : String)
    (lstatK : String → Option LstatKind) : List RawDirent → Nat × Nat
  | [] => (0, 0)
  | d :: rest =>
    let r := DirGetEntryCount_stdio mode path lstatK rest
    if d.name = "." ∨ d.name = ".." then r
    else if d.dtype = DT_DIR then
      if mode &&& FsDirOpenMode_ReadDirs = 0 then r else (r.1, r.2 + 1)
    else if d.dtype = DT_REG then
      if mode &&& FsDirOpenMode_ReadFiles = 0 then r else (r.1 + 1, r.2)
    else
      match lstatK (append_child path d.name) with
      | some LstatKind.dir =>
        if mode &&& FsDirOpenMode_ReadDirs ≠ 0 then (r.1, r.2 + 1) else r
      | some LstatKind.reg =>
        if mode &&& FsDirOpenMode_ReadFiles ≠ 0 then (r.1 + 1, r.2) else r
      | _ => r

/-- The claim's reading of the batch read (named from the spec, for
comparison with the code's `Dir_Read_stdio_go`): an entry with an
unknown type indicator is resolved by an extra per-entry metadata
lookup, and only when that lookup also fails is the entry skipped. -/
def Dir_Read_specResolve (lstatK : String → Option LstatKind) (path : String)
    (mode max_entries : Nat) (acc : List DirEntryM) :
    List RawDirent → List DirEntryM
  | [] => acc
  | d :: rest =>
    if d.name = "." ∨ d.name = ".." then
      Dir_Read_specResolve lstatK path mode max_entries acc rest
    else
      let t? : Option Nat :=
        if d.dtype = DT_DIR then
          if mode &&& FsDirOpenMode_ReadDirs = 0 then none
          else some FsDirEntryType_Dir
        else if d.dtype = DT_REG then
          if mode &&& FsDirOpenMode_ReadFiles = 0 then none
          else some FsDirEntryType_File
        else
          match lstatK (append_child path d.name) with
          | none => none
          | some LstatKind.dir =>
            if mode &&& FsDirOpenMode_ReadDirs = 0 then none
            else some FsDirEntryType_Dir
          | some _ =>
            if mode &&& FsDirOpenMode_ReadFiles = 0 then none
            else some FsDirEntryType_File
      match t? with
      | none => Dir_Read_specResolve lstatK path mode max_entries acc rest
      | some t =>
        let acc := acc ++ [⟨d.name, t⟩]
        if max_entries ≤ acc.length then acc
        else Dir_Read_specResolve lstatK path mode max_entries acc rest

/-- Modelled from the spec: `thread::Transfer` (the chunked transfer
loop of `threaded_file_transfer.cpp`, which is not among the modelled
sources) pulls fixed-size chunks from the read function and feeds them
to the write function, consulting a cancellation flag at each chunk
boundary; when cancelled it returns a cancellation error without
invoking the remaining steps, otherwise it returns the first I/O error,
or success after the final chunk. -/
def thread_Transfer (cancelled : Bool) (ioResult : Nat) : Nat :=
  if cancelled then Result_TransferCancelled else ioResult

/-- The hex digit table `"0123456789abcdef"` of the hash finalizers. -/
def hexChars : List Char := "0123456789abcdef".toList

/-- One nibble to its lowercase hex digit. -/
def hexDigit (n : Nat) : Char := hexChars.getD n '0'

/-- Two hex digits of one byte (`str[i*2] = hex[(byte >> 4) & 0xF];
str[i*2+1] = hex[byte & 0xF]`). -/
def byteHex (b : Nat) : List Char :=
  [hexDigit ((b >>> 4) &&& 0xF), hexDigit (b &&& 0xF)]

/-- `HashCrc32::Get`: the 32-bit seed rendered big-endian as eight
lowercase hex characters. -/
def crcHexStr (seed : Nat) : String :=
  String.mk (byteHex ((seed >>> 24) &&& 0xFF) ++ byteHex ((seed >>> 16) &&& 0xFF)
    ++ byteHex ((seed >>> 8) &&& 0xFF) ++ byteHex (seed &&& 0xFF))

/-- Outcome of one run of the driving loop `Hash(pbox, hash, source,
out)` in `hasher.cpp`: the returned result code, how many times the
algorithm's finalizer (`Get`) ran, and the produced hex string if any. -/
structure HashOutcome where
  rc : Nat
  finalizeCalls : Nat
  output : Option String
  deriving DecidableEq

/-- The driving loop of `Hash` in `hasher.cpp`: query the source size,
run the chunked transfer, and only after both succeed call the
algorithm's finalizer (exactly once) to produce the hex string;
any failure is returned as-is with the finalizer never invoked. -/
def Hash_run (sizeRc transferRc : Nat) (digestHex : String) : HashOutcome :=
  if sizeRc ≠ R_SUCCESS then ⟨sizeRc, 0, none⟩
  else if transferRc ≠ R_SUCCESS then ⟨transferRc, 0, none⟩
  else ⟨R_SUCCESS, 1, some digestHex⟩

/-- Path components: the segments of a character list split at slashes,
with empty segments dropped (the normal form of a directory path, under
which `"/a/b"` and `"/a/b/"` coincide). -/
def comps (cs : List Char) : List (List Char) :=
  (splitSlash cs).filter (fun c => c ≠ [])

/-- A modelled directory tree: the currently existing directories, each
as its component normal form. -/
abbrev DirState := List (List (List Char))

/-- Modelled `mkdir` primitive interpreting the backend underneath
`CreateDirectoryRecursively`: the root (or an existing directory)
yields "already exists", a missing parent is an error, otherwise the
directory is created. -/
def fsMkdir (S : DirState) (p : String) : Nat × DirState :=
  let c := comps p.toList
  if c = [] then (FsError_PathAlreadyExists, S)
  else if c ∈ S then (FsError_PathAlreadyExists, S)
  else if c.dropLast = [] ∨ c.dropLast ∈ S then (R_SUCCESS, c :: S)
  else (Result_FsUnknownStdioError, S)

/-- The policy-gated `fs::CreateDirectory` over the modelled
filesystem. -/
def mkdirG (ignore_read_only : Bool) (S : DirState) (p : String) :
    Nat × DirState :=
  if !ignore_read_only && is_read_only_root p then (Result_FsReadOnly, S)
  else fsMkdir S p

/-- `fs::CreateDirectoryRecursively` interpreted over the modelled
filesystem. -/
def cdRecFS (ignore_read_only : Bool) (S : DirState) (p : String) :
    Nat × DirState :=
  CreateDirectoryRecursively_core (mkdirG ignore_read_only)
    ignore_read_only S p

/-- A stateless result oracle standing for the backend's
`CreateDirectory`, for reasoning about which segments the walk consults
and how it reacts to their results. -/
def mk_oracle (oracle : String → Nat) (s : Unit) (p : String) : Nat × Unit :=
  (oracle p, s)

/-- The cumulative per-segment paths consulted by the creation walk
(mirroring its buffer construction). -/
def cumul_paths (built : List Char) : List (List Char) → List String
  | [] => []
  | c :: rest =>
    if c = [] then cumul_paths built rest
    else String.mk (built ++ c) :: cumul_paths ((built ++ c) ++ ['/']) rest

/-- First non-success, non-"already exists" result along the segments,
or success. -/
def first_failure (oracle : String → Nat) : List String → Nat
  | [] => R_SUCCESS
  | q :: rest =>
    if oracle q ≠ R_SUCCESS ∧ oracle q ≠ FsError_PathAlreadyExists then
      oracle q
    else first_failure oracle rest

/-- Follows the claim's words (for comparison with the code's
`CreateDirectoryRecursively_core`): try the full path first, where
success or "already exists" is success; otherwise walk the segments
from the root marker, treating "already exists" at any segment as
success and continuing, and aborting with the first other failure. -/
def spec_walk (oracle : String → Nat) (p : String) : Nat :=
  if oracle p = R_SUCCESS ∨ oracle p = FsError_PathAlreadyExists then
    R_SUCCESS
  else
    first_failure oracle
      (cumul_paths (colon_split p.toList).1 (splitSlash (colon_split p.toList).2))

/-- Trace-collecting wrapper of a per-path operation, the common shape
of the walk instantiations. -/
def mk_of (f : String → Nat × List Call) (tr : List Call) (q : String) :
    Nat × List Call :=
  ((f q).1, tr ++ (f q).2)

/-- **C3** — POSIX `File::Read`: the call fails exactly when the read is
short and the stream reports an error without end-of-file; the delivered
byte count is reported in all cases; the only failure code is the stdio
error; on success the tracked offset advances by the bytes read. -/
theorem c3_file_read_short (off : Int) (n : Nat) (o : FreadOut) :
    ((File_Read_stdio off n o).1 ≠ R_SUCCESS ↔
      (o.bytesRead < n ∧ o.eof = false ∧ o.err = true))
    ∧ (File_Read_stdio off n o).2.1 = o.bytesRead
    ∧ ((File_Read_stdio off n o).1 = R_SUCCESS ∨
       (File_Read_stdio off n o).1 = Result_FsUnknownStdioError)
    ∧ ((File_Read_stdio off n o).1 = R_SUCCESS →
        (File_Read_stdio off n o).2.2 = off + o.bytesRead) := by
  unfold File_Read_stdio
  rcases o with ⟨br, eof, err⟩
  by_cases h : br < n
  · cases eof <;> cases err <;>
      simp [h, R_SUCCESS, Result_FsUnknownStdioError]
  · cases eof <;> cases err <;>
      simp [h, R_SUCCESS, Result_FsUnknownStdioError]

/-- C3 witness: a short read at end-of-file succeeds. -/
theorem c3_file_read_short_witness :
    (File_Read_stdio 0 10 ⟨4, true, false⟩).1 = R_SUCCESS ∧
    (File_Read_stdio 0 10 ⟨4, true, false⟩).2.2 = 0 + (4 : Nat) :=
  ⟨by
    by_contra hne
    have h := (c3_file_read_short 0 10 ⟨4, true, false⟩).1.mp hne
    simp at h,
   (c3_file_read_short 0 10 ⟨4, true, false⟩).2.2.2 (by decide)⟩

/-- **C8** — `MemSource::Read` always succeeds; a negative or past-the-end
offset reports zero bytes read; otherwise exactly `min n (S - off)` bytes
starting at `off` are copied and reported. -/
theorem c8_memsource_read (data : List Nat) (off : Int) (n : Nat) :
    (MemSource_Read data off n).1 = R_SUCCESS
    ∧ (off < 0 ∨ (data.length : Int) ≤ off → (MemSource_Read data off n).2.1 = 0)
    ∧ (0 ≤ off → off < (data.length : Int) →
        (MemSource_Read data off n).2.1 = min n (data.length - off.toNat)
        ∧ (MemSource_Read data off n).2.2 =
            (data.drop off.toNat).take (min n (data.length - off.toNat))) := by
  refine ⟨?_, ?_, ?_⟩
  · unfold MemSource_Read
    by_cases h1 : off < 0
    · simp [h1]
    · by_cases h2 : (data.length : Int) - off ≤ 0 <;> simp [h1, h2, R_SUCCESS]
  · intro h
    unfold MemSource_Read
    rcases h with h | h
    · simp [h]
    · have h0 : ¬ off < 0 := by omega
      have h1 : (data.length : Int) - off ≤ 0 := by omega
      simp [h0, h1]
  · intro h0 h1
    have hn0 : ¬ off < 0 := by omega
    have hne : ¬ (data.length : Int) - off ≤ 0 := by omega
    have key : (min (n : Int) ((data.length : Int) - off)).toNat
        = min n (data.length - off.toNat) := by
      rcases le_total (n : Int) ((data.length : Int) - off) with hle | hle
      · rw [min_eq_left hle, Int.toNat_ofNat]
        omega
      · rw [min_eq_right hle]
        omega
    constructor
    · unfold MemSource_Read
      simp only [hn0, if_false, hne, if_neg, ite_false]
      simpa using key
    · unfold MemSource_Read
      simp only [hn0, if_false, hne, if_neg, ite_false]
      simp [key]

/-- C8 witness: in-range offset copies the clamped range; negative offset
reports zero bytes. -/
theorem c8_memsource_read_witness :
    (MemSource_Read [10, 20, 30] 1 5).2.1 = 2
    ∧ (MemSource_Read [10, 20, 30] 1 5).2.2 = [20, 30]
    ∧ (MemSource_Read [10, 20, 30] (-1) 5).2.1 = 0 := by
  have h := (c8_memsource_read [10, 20, 30] 1 5).2.2 (by decide) (by decide)
  have h2 := (c8_memsource_read [10, 20, 30] (-1) 5).2.1 (Or.inl (by decide))
  refine ⟨?_, ?_, h2⟩
  · rw [h.1]; decide
  · rw [h.2]; decide

/-- **C9** — `AppendPath` strips all leading slashes from the file part,
inserts exactly one `/` separator when the root is nonempty and does not
already end in `/` (and none otherwise), and always fits the fixed path
capacity with room for the NUL terminator, truncating overlong output. -/
theorem c9_append_path (root file : String) :
    (AppendPath root file).toList.length ≤ FS_MAX_PATH - 1
    ∧ (strip_leading file).head? ≠ some '/'
    ∧ (root.toList = [] →
        AppendPath root file =
          String.mk ((strip_leading file).take (FS_MAX_PATH - 1)))
    ∧ (root.toList ≠ [] → root.toList.getLast? ≠ some '/' →
        AppendPath root file =
          String.mk ((root.toList ++ '/' :: strip_leading file).take
            (FS_MAX_PATH - 1)))
    ∧ (root.toList.getLast? = some '/' →
        AppendPath root file =
          String.mk ((root.toList ++ strip_leading file).take
            (FS_MAX_PATH - 1))) := by
  refine ⟨?_, ?_, ?_, ?_, ?_⟩
  · unfold AppendPath
    simp [String.toList, String.mk]
  · unfold strip_leading
    generalize file.toList = l
    induction l with
    | nil => simp
    | cons c rest ih =>
      by_cases h : c = '/'
      · simpa [List.dropWhile_cons, h] using ih
      · simp [List.dropWhile_cons, h]
  · intro h
    unfold AppendPath
    dsimp only
    split
    · rfl
    · next hne => exact absurd h hne
  · intro h h2
    unfold AppendPath
    dsimp only
    split
    · next he => exact absurd he h
    · rfl
  · intro h
    have h0 : root.toList ≠ [] := by
      intro hc
      rw [hc] at h
      simp at h
    unfold AppendPath
    dsimp only
    split
    · next he => exact absurd he h0
    · rfl

/-- C9 witness: empty root, root without trailing slash, root with
trailing slash, and a file part with doubled leading slashes. -/
theorem c9_append_path_witness :
    AppendPath "/root" "//file" = String.mk ("/root/file".toList.take 768)
    ∧ AppendPath "/root/" "file" = String.mk ("/root/file".toList.take 768)
    ∧ AppendPath "" "//file" = String.mk ("file".toList.take 768) := by
  refine ⟨?_, ?_, ?_⟩
  · rw [(c9_append_path "/root" "//file").2.2.2.1 (by decide) (by decide)]
    decide
  · rw [(c9_append_path "/root/" "file").2.2.2.2 (by decide)]
    decide
  · rw [(c9_append_path "" "//file").2.2.1 (by decide)]
    decide

/-- Helper: the recursive-creation loop only depends on the pointwise
behaviour of the single-directory operation. -/
theorem cdr_loop_congr {σ : Type} (mk mk' : σ → String → Nat × σ)
    (h : ∀ s p, mk s p = mk' s p) (comps : List (List Char)) :
    ∀ built s, cdr_loop mk built comps s = cdr_loop mk' built comps s := by
  induction comps with
  | nil => intro built s; rfl
  | cons c rest ih =>
    intro built s
    unfold cdr_loop
    by_cases hc : c = []
    · simp only [hc, if_pos]
      exact ih built s
    · simp only [if_neg hc]
      rw [h s (String.mk (built ++ c))]
      split
      · rfl
      · exact ih _ _

/-- Helper: same congruence for the full recursive creation. -/
theorem cdr_core_congr {σ : Type} (mk mk' : σ → String → Nat × σ)
    (h : ∀ s p, mk s p = mk' s p) (ig : Bool) (s : σ) (path : String) :
    CreateDirectoryRecursively_core mk ig s path =
      CreateDirectoryRecursively_core mk' ig s path := by
  unfold CreateDirectoryRecursively_core
  rw [h s path]
  split
  · rfl
  · dsimp only
    split
    · rfl
    · exact cdr_loop_congr mk mk' h _ _ _

/-- **C1** — for every mutating operation on either backend: with the
override unset and the operation's applicable read-only predicate true,
the operation returns the dedicated read-only error with an empty
backend-call trace (no I/O, no state change); with the override set the
policy gate is skipped and the operation equals its policy-free body,
whose outcome is determined only by the backend (for the recursive
creation, every inner per-segment gate is skipped as well). -/
theorem c1_read_only_no_io (bn : NativeBackend) (bs : StdioBackend)
    (pc pd q : String) (size opt : Nat) (data : List Nat)
    (hc : is_read_only_root pc = true) (hd : is_read_only pd = true) :
    CreateFile_native bn pc size opt false = (Result_FsReadOnly, [])
    ∧ CreateDirectory_native bn pc false = (Result_FsReadOnly, [])
    ∧ CreateDirectoryRecursively_native bn pc false = (Result_FsReadOnly, [])
    ∧ DeleteFile_native bn pd false = (Result_FsReadOnly, [])
    ∧ DeleteDirectory_native bn pd false = (Result_FsReadOnly, [])
    ∧ DeleteDirectoryRecursively_native bn pd false = (Result_FsReadOnly, [])
    ∧ RenameFile_native bn pd q false = (Result_FsReadOnly, [])
    ∧ RenameDirectory_native bn pd q false = (Result_FsReadOnly, [])
    ∧ write_entire_file_native bn pd data false = (Result_FsReadOnly, [])
    ∧ copy_entire_file_native bn pd q false = (Result_FsReadOnly, [])
    ∧ CreateFile_stdio bs pc size opt false = (Result_FsReadOnly, [])
    ∧ CreateDirectory_stdio bs pc false = (Result_FsReadOnly, [])
    ∧ CreateDirectoryRecursively_stdio bs pc false = (Result_FsReadOnly, [])
    ∧ DeleteFile_stdio bs pd false = (Result_FsReadOnly, [])
    ∧ DeleteDirectory_stdio bs pd false = (Result_FsReadOnly, [])
    ∧ DeleteDirectoryRecursively_stdio bs pd false = (Result_FsReadOnly, [])
    ∧ RenameFile_stdio bs pd q false = (Result_FsReadOnly, [])
    ∧ RenameDirectory_stdio bs pd q false = (Result_FsReadOnly, [])
    ∧ write_entire_file_stdio bs pd data false = (Result_FsReadOnly, [])
    ∧ copy_entire_file_stdio bs pd q false = (Result_FsReadOnly, [])
    ∧ CreateFile_native bn pc size opt true = CreateFile_native_go bn pc size opt
    ∧ CreateDirectory_native bn pc true = CreateDirectory_native_go bn pc
    ∧ DeleteFile_native bn pd true = DeleteFile_native_go bn pd
    ∧ DeleteDirectory_native bn pd true = DeleteDirectory_native_go bn pd
    ∧ DeleteDirectoryRecursively_native bn pd true =
        DeleteDirectoryRecursively_native_go bn pd
    ∧ RenameFile_native bn pd q true = RenameFile_native_go bn pd q
    ∧ RenameDirectory_native bn pd q true = RenameDirectory_native_go bn pd q
    ∧ write_entire_file_native bn pd data true =
        write_entire_file_native_go bn pd data true
    ∧ copy_entire_file_native bn pd q true =
        copy_entire_file_native_go bn pd q true
    ∧ CreateFile_stdio bs pc size opt true = CreateFile_stdio_go bs pc size
    ∧ CreateDirectory_stdio bs pc true = CreateDirectory_stdio_go bs pc
    ∧ DeleteFile_stdio bs pd true = DeleteFile_stdio_go bs pd
    ∧ DeleteDirectory_stdio bs pd true = DeleteDirectory_stdio_go bs pd
    ∧ DeleteDirectoryRecursively_stdio bs pd true =
        DeleteDirectoryRecursively_stdio_go bs pd
    ∧ RenameFile_stdio bs pd q true = RenameFile_stdio_go bs pd q
    ∧ RenameDirectory_stdio bs pd q true = RenameFile_stdio bs pd q true
    ∧ write_entire_file_stdio bs pd data true =
        write_entire_file_stdio_go bs pd data
    ∧ copy_entire_file_stdio bs pd q true =
        copy_entire_file_stdio_go bs pd q true
    ∧ CreateDirectoryRecursively_native bn pc true =
        CreateDirectoryRecursively_core
          (fun tr r =>
            let x := CreateDirectory_native_go bn r
            (x.1, tr ++ x.2)) true [] pc
    ∧ CreateDirectoryRecursively_stdio bs pc true =
        CreateDirectoryRecursively_core
          (fun tr r =>
            let x := CreateDirectory_stdio_go bs r
            (x.1, tr ++ x.2)) true [] pc := by
  refine ⟨?_, ?_, ?_, ?_, ?_, ?_, ?_, ?_, ?_, ?_, ?_, ?_, ?_, ?_, ?_, ?_,
    ?_, ?_, ?_, ?_, ?_, ?_, ?_, ?_, ?_, ?_, ?_, ?_, ?_, ?_, ?_, ?_, ?_,
    ?_, ?_, ?_, ?_, ?_, ?_, ?_⟩
  · simp [CreateFile_native, hc]
  · simp [CreateDirectory_native, hc]
  · simp [CreateDirectoryRecursively_native,
      CreateDirectoryRecursively_core, hc]
  · simp [DeleteFile_native, hd]
  · simp [DeleteDirectory_native, hd]
  · simp [DeleteDirectoryRecursively_native, hd]
  · simp [RenameFile_native, hd]
  · simp [RenameDirectory_native, hd]
  · simp [write_entire_file_native, hd]
  · simp [copy_entire_file_native, hd]
  · simp [CreateFile_stdio, hc]
  · simp [CreateDirectory_stdio, hc]
  · simp [CreateDirectoryRecursively_stdio, hc]
  · simp [DeleteFile_stdio, hd]
  · simp [DeleteDirectory_stdio, hd]
  · simp [DeleteDirectoryRecursively_stdio, hd]
  · simp [RenameFile_stdio, hd]
  · simp [RenameDirectory_stdio, hd]
  · simp [write_entire_file_stdio, hd]
  · simp [copy_entire_file_stdio, hd]
  · rfl
  · rfl
  · rfl
  · rfl
  · rfl
  · rfl
  · rfl
  · rfl
  · rfl
  · rfl
  · rfl
  · rfl
  · rfl
  · rfl
  · rfl
  · rfl
  · rfl
  · rfl
  · show CreateDirectoryRecursively_core (mk_native bn true) true [] pc = _
    exact cdr_core_congr _ _ (fun s p => by simp [mk_native, CreateDirectory_native]) _ _ _
  · show (if !true && is_read_only_root pc then (Result_FsReadOnly, [])
      else CreateDirectoryRecursively_core (mk_stdio bs true) true [] pc) = _
    simp only [Bool.not_true, Bool.false_and, Bool.false_eq_true, if_false]
    exact cdr_core_congr _ _ (fun s p => by simp [mk_stdio, CreateDirectory_stdio]) _ _ _

/-- C1 witness: a protected-root path blocks native file creation with no
backend call; with the override set the backend is consulted. -/
theorem c1_read_only_no_io_witness :
    CreateFile_native nb0 "/backup/x" 0 0 false = (Result_FsReadOnly, [])
    ∧ DeleteFile_stdio sb0 "/switch" false = (Result_FsReadOnly, [])
    ∧ CreateFile_native nb0 "/backup/x" 0 0 true =
        CreateFile_native_go nb0 "/backup/x" 0 0 := by
  have h := c1_read_only_no_io nb0 sb0 "/backup/x" "/switch" "/tmp/ok" 0 0 []
    (by decide) (by decide)
  exact ⟨h.1, h.2.2.2.2.2.2.2.2.2.2.2.2.2.1, rfl⟩

/-- **C4** — create-on-existing: when the backend reports an existing
file (native service result, or `open` failing with `EEXIST` on POSIX),
`CreateFile` surfaces `FsError_PathAlreadyExists`, a code distinct from
success, from the read-only error, and from every other error code of
the component's taxonomy. -/
theorem c4_create_already_exists (bn : NativeBackend) (bs : StdioBackend)
    (p : String) (size opt : Nat)
    (hok : is_read_only_root p = false)
    (hnat : bn.createFile p size (effective_option size opt) =
      FsError_PathAlreadyExists)
    (hstd : bs.openErr p = some EEXIST) :
    (CreateFile_native bn p size opt false).1 = FsError_PathAlreadyExists
    ∧ (CreateFile_stdio bs p size opt false).1 = FsError_PathAlreadyExists
    ∧ FsError_PathAlreadyExists ≠ R_SUCCESS
    ∧ FsError_PathAlreadyExists ≠ Result_FsReadOnly
    ∧ FsError_PathAlreadyExists ≠ Result_FsUnknownStdioError
    ∧ FsError_PathAlreadyExists ≠ Result_FsNotActive
    ∧ FsError_PathAlreadyExists ≠ Result_FsFailedStdioStat
    ∧ FsError_PathAlreadyExists ≠ Result_FsFailedStdioOpendir
    ∧ FsError_PathAlreadyExists ≠ Result_TransferCancelled
    ∧ FsError_PathAlreadyExists ≠ 1 := by
  refine ⟨?_, ?_, by decide, by decide, by decide, by decide, by decide,
    by decide, by decide, by decide⟩
  · simp [CreateFile_native, CreateFile_native_go, hok, hnat,
      FsError_PathAlreadyExists, R_SUCCESS]
  · simp [CreateFile_stdio, CreateFile_stdio_go, hok, hstd, EEXIST]

/-- C4 witness: backends reporting an existing target at an unprotected
path. -/
theorem c4_create_already_exists_witness :
    (CreateFile_native nbAE "/file.txt" 0 0 false).1 = FsError_PathAlreadyExists
    ∧ (CreateFile_stdio sbAE "/file.txt" 0 0 false).1 = FsError_PathAlreadyExists := by
  have h := c4_create_already_exists nbAE sbAE "/file.txt" 0 0
    (by decide) (by decide) (by decide)
  exact ⟨h.1, h.2.1⟩

/-- Helper: the stdio whole-file read always begins by opening the
source (its trace starts with the `fopen` of the source). -/
theorem read_entire_file_stdio_head (b : StdioBackend) (p : String) :
    (read_entire_file_stdio b p).2.2.head? = some (Call.sFopen p "rb") := by
  unfold read_entire_file_stdio
  by_cases h1 : b.fopenOk p "rb"
  · by_cases h2 : b.fseekEndOk p
    · by_cases h3 : b.ftellRet p < 0
      · simp [h1, h2, h3]
      · by_cases h4 : (b.freadData p (b.ftellRet p).toNat).length = (b.ftellRet p).toNat
        · simp [h1, h2, h3, h4]
        · by_cases h5 : b.ferror p <;> simp [h1, h2, h3, h4, h5]
    · simp [h1, h2]
  · simp [h1]

/-- Helper: the native whole-file read begins by opening the source
whenever the filesystem wrapper itself opened successfully. -/
theorem read_entire_file_native_head (b : NativeBackend) (p : String)
    (h : b.openFsResult = R_SUCCESS) :
    (read_entire_file_native b p).2.2.head? =
      some (Call.fsOpenFile p FsOpenMode_Read) := by
  unfold read_entire_file_native
  rw [h]
  by_cases h1 : (b.openFile p FsOpenMode_Read) = R_SUCCESS
  · by_cases h2 : (b.fileGetSize p).1 = R_SUCCESS
    · by_cases h3 : (b.fileGetSize p).2 < 0
      · simp [h1, h2, h3]
      · by_cases h4 : (b.fileRead p 0 (b.fileGetSize p).2).1 = R_SUCCESS
        · by_cases h5 :
            ((b.fileRead p 0 (b.fileGetSize p).2).2.length : Int)
              = (b.fileGetSize p).2 <;> simp [h1, h2, h3, h4, h5]
        · simp [h1, h2, h3, h4]
    · simp [h1, h2]
  · simp [h1]

/-- **C10** — `copy_entire_file` applies the read-only policy only to the
destination: a protected destination without override is rejected with
the read-only error before any backend call (so the source is never
read); a protected source is never a reason for rejection — with an
unprotected destination the copy proceeds into its body, whose very
first backend call opens the protected source for reading. -/
theorem c10_copy_policy_dst_only (bn : NativeBackend) (bs : StdioBackend)
    (dst src pdst : String)
    (_hsrc : is_read_only src = true) (hdst : is_read_only dst = false)
    (hp : is_read_only pdst = true) :
    copy_entire_file_native bn pdst src false = (Result_FsReadOnly, [])
    ∧ copy_entire_file_stdio bs pdst src false = (Result_FsReadOnly, [])
    ∧ copy_entire_file_native bn dst src false =
        copy_entire_file_native_go bn dst src false
    ∧ copy_entire_file_stdio bs dst src false =
        copy_entire_file_stdio_go bs dst src false
    ∧ (copy_entire_file_stdio bs dst src false).2.head? =
        some (Call.sFopen src "rb")
    ∧ (bn.openFsResult = R_SUCCESS →
        (copy_entire_file_native bn dst src false).2.head? =
          some (Call.fsOpenFile src FsOpenMode_Read)) := by
  have hng : copy_entire_file_native bn dst src false =
      copy_entire_file_native_go bn dst src false := by
    simp [copy_entire_file_native, hdst]
  have hsg : copy_entire_file_stdio bs dst src false =
      copy_entire_file_stdio_go bs dst src false := by
    simp [copy_entire_file_stdio, hdst]
  refine ⟨?_, ?_, hng, hsg, ?_, ?_⟩
  · simp [copy_entire_file_native, hp]
  · simp [copy_entire_file_stdio, hp]
  · rw [hsg]
    unfold copy_entire_file_stdio_go
    have hh := read_entire_file_stdio_head bs src
    dsimp only
    split
    · exact hh
    · dsimp only
      rcases hx : (read_entire_file_stdio bs src).2.2 with _ | ⟨a, l⟩
      · rw [hx] at hh; simp at hh
      · rw [hx] at hh
        simpa using hh
  · intro hofs
    rw [hng]
    unfold copy_entire_file_native_go
    have hh := read_entire_file_native_head bn src hofs
    dsimp only
    split
    · exact hh
    · dsimp only
      rcases hx : (read_entire_file_native bn src).2.2 with _ | ⟨a, l⟩
      · rw [hx] at hh; simp at hh
      · rw [hx] at hh
        simpa using hh

/-- C10 witness: copying the protected `/switch/prod.keys` to an
unprotected destination proceeds to read the source; copying onto a
protected destination is rejected without I/O. -/
theorem c10_copy_policy_dst_only_witness :
    (copy_entire_file_stdio sb0 "/ok" "/switch/prod.keys" false).2.head? =
      some (Call.sFopen "/switch/prod.keys" "rb")
    ∧ copy_entire_file_native nb0 "/switch/prod.keys" "/ok" false =
        (Result_FsReadOnly, []) := by
  have h := c10_copy_policy_dst_only nb0 sb0 "/ok" "/switch/prod.keys"
    "/switch/prod.keys" (by decide) (by decide) (by decide)
  exact ⟨h.2.2.2.2.1, h.1⟩

/-- Helper: every entry produced by the `Dir::Read` loop is tagged with
one of the two entry types, provided the accumulator already is. -/
theorem dir_read_go_types (mode max_entries : Nat) (stream : List RawDirent) :
    ∀ acc, (∀ e ∈ acc, e.type = FsDirEntryType_Dir ∨ e.type = FsDirEntryType_File) →
      ∀ e ∈ Dir_Read_stdio_go mode max_entries acc stream,
        e.type = FsDirEntryType_Dir ∨ e.type = FsDirEntryType_File := by
  induction stream with
  | nil =>
    intro acc hacc e he
    unfold Dir_Read_stdio_go at he
    exact hacc e he
  | cons d rest ih =>
    intro acc hacc e he
    unfold Dir_Read_stdio_go at he
    by_cases hdot : d.name = "." ∨ d.name = ".."
    · rw [if_pos hdot] at he
      exact ih acc hacc e he
    · rw [if_neg hdot] at he
      dsimp only at he
      split at he
      · exact ih acc hacc e he
      · next t heq =>
        have ht : t = FsDirEntryType_Dir ∨ t = FsDirEntryType_File := by
          split at heq
          · split at heq
            · cases heq
            · cases heq
              exact Or.inl rfl
          · split at heq
            · split at heq
              · cases heq
              · cases heq
                exact Or.inr rfl
            · cases heq
              exact Or.inr rfl
        have hacc' : ∀ e ∈ acc ++ [⟨d.name, t⟩],
            e.type = FsDirEntryType_Dir ∨ e.type = FsDirEntryType_File := by
          intro x hx
          rcases List.mem_append.mp hx with hx | hx
          · exact hacc x hx
          · rcases List.mem_singleton.mp hx with rfl
            exact ht
        split at he
        · exact hacc' e he
        · exact ih _ hacc' e he

/-- Helper: the one-step equation of `Dir::ReadAll`. -/
theorem dir_readall_cons (mode : Nat) (d : RawDirent) (rest : List RawDirent) :
    Dir_ReadAll_stdio mode (d :: rest) =
      (if d.name = "." ∨ d.name = ".." then Dir_ReadAll_stdio mode rest
       else if d.dtype = DT_DIR then
         (if mode &&& FsDirOpenMode_ReadDirs = 0 then Dir_ReadAll_stdio mode rest
          else ⟨d.name, FsDirEntryType_Dir⟩ :: Dir_ReadAll_stdio mode rest)
       else if d.dtype = DT_REG then
         (if mode &&& FsDirOpenMode_ReadFiles = 0 then Dir_ReadAll_stdio mode rest
          else ⟨d.name, FsDirEntryType_File⟩ :: Dir_ReadAll_stdio mode rest)
       else Dir_ReadAll_stdio mode rest) := rfl

/-- Helper: the one-step equation of the stdio `DirGetEntryCount`. -/
theorem dir_count_cons (mode : Nat) (path : String)
    (lstatK : String → Option LstatKind) (d : RawDirent)
    (rest : List RawDirent) :
    DirGetEntryCount_stdio mode path lstatK (d :: rest) =
      (let r := DirGetEntryCount_stdio mode path lstatK rest
       if d.name = "." ∨ d.name = ".." then r
       else if d.dtype = DT_DIR then
         (if mode &&& FsDirOpenMode_ReadDirs = 0 then r else (r.1, r.2 + 1))
       else if d.dtype = DT_REG then
         (if mode &&& FsDirOpenMode_ReadFiles = 0 then r else (r.1 + 1, r.2))
       else
         match lstatK (append_child path d.name) with
         | some LstatKind.dir =>
           if mode &&& FsDirOpenMode_ReadDirs ≠ 0 then (r.1, r.2 + 1) else r
         | some LstatKind.reg =>
           if mode &&& FsDirOpenMode_ReadFiles ≠ 0 then (r.1 + 1, r.2) else r
         | _ => r) := rfl

/-- Helper: `Dir::ReadAll` on the POSIX backend is compositional in the
stream: skipping one entry never affects how the rest is listed. -/
theorem dir_readall_append (mode : Nat) (xs ys : List RawDirent) :
    Dir_ReadAll_stdio mode (xs ++ ys) =
      Dir_ReadAll_stdio mode xs ++ Dir_ReadAll_stdio mode ys := by
  induction xs with
  | nil => rfl
  | cons d rest ih =>
    simp only [List.cons_append, dir_readall_cons]
    by_cases hdot : d.name = "." ∨ d.name = ".."
    · simp only [if_pos hdot]
      exact ih
    · simp only [if_neg hdot]
      by_cases h1 : d.dtype = DT_DIR
      · simp only [if_pos h1]
        by_cases h2 : mode &&& FsDirOpenMode_ReadDirs = 0
        · simp only [if_pos h2]
          exact ih
        · simp only [if_neg h2, ih, List.cons_append]
      · simp only [if_neg h1]
        by_cases h3 : d.dtype = DT_REG
        · simp only [if_pos h3]
          by_cases h4 : mode &&& FsDirOpenMode_ReadFiles = 0
          · simp only [if_pos h4]
            exact ih
          · simp only [if_neg h4, ih, List.cons_append]
        · simp only [if_neg h3]
          exact ih

/-- **C5 counterexample** — an entry with unknown `d_type` whose metadata
lookup reports a directory: the code's `Dir::Read` tags it as a file
without consulting the lookup (and `Dir::ReadAll` drops it), whereas the
claim's lookup-resolving read would tag it as a directory. -/
theorem c5_counterexample :
    Dir_Read_stdio 3 10 [⟨"x", DT_UNKNOWN⟩] =
      (R_SUCCESS, [⟨"x", FsDirEntryType_File⟩])
    ∧ Dir_Read_specResolve (fun _ => some LstatKind.dir) "/d" 3 10 []
        [⟨"x", DT_UNKNOWN⟩] = [⟨"x", FsDirEntryType_Dir⟩]
    ∧ FsDirEntryType_File ≠ FsDirEntryType_Dir
    ∧ Dir_ReadAll_stdio 3 [⟨"x", DT_UNKNOWN⟩] = [] := by
  refine ⟨by decide, by decide, by decide, by decide⟩

/-- **C5 (amended)** — POSIX batch directory reads: every returned entry
is tagged with one of the two types, but an entry with an unknown type
indicator is tagged as a file by `Dir::Read` without any metadata
lookup, and is skipped (listing continuing) by `Dir::ReadAll`, again
without a lookup; the per-entry `lstat` resolution — counting the entry
when the lookup succeeds and skipping it, while continuing, when the
lookup fails — is performed by `DirGetEntryCount`. -/
theorem c5_dir_read_unknown_types (mode max_entries dt : Nat) (name path : String)
    (lstatK : String → Option LstatKind) (stream rest : List RawDirent)
    (hdot : ¬(name = "." ∨ name = ".."))
    (hd : dt ≠ DT_DIR) (hr : dt ≠ DT_REG) :
    (∀ e ∈ (Dir_Read_stdio mode max_entries stream).2,
        e.type = FsDirEntryType_Dir ∨ e.type = FsDirEntryType_File)
    ∧ Dir_Read_stdio mode max_entries [⟨name, dt⟩] =
        (R_SUCCESS, [⟨name, FsDirEntryType_File⟩])
    ∧ Dir_ReadAll_stdio mode (⟨name, dt⟩ :: rest) = Dir_ReadAll_stdio mode rest
    ∧ (lstatK (append_child path name) = none →
        DirGetEntryCount_stdio mode path lstatK (⟨name, dt⟩ :: rest) =
          DirGetEntryCount_stdio mode path lstatK rest)
    ∧ (lstatK (append_child path name) = some LstatKind.dir →
        mode &&& FsDirOpenMode_ReadDirs ≠ 0 →
        DirGetEntryCount_stdio mode path lstatK (⟨name, dt⟩ :: rest) =
          ((DirGetEntryCount_stdio mode path lstatK rest).1,
           (DirGetEntryCount_stdio mode path lstatK rest).2 + 1)) := by
  refine ⟨?_, ?_, ?_, ?_, ?_⟩
  · intro e he
    exact dir_read_go_types mode max_entries stream [] (by simp) e he
  · unfold Dir_Read_stdio Dir_Read_stdio_go
    simp [hdot, hd, hr]
    intro _
    rfl
  · rw [dir_readall_cons]
    simp [hdot, hd, hr]
  · intro hnone
    rw [dir_count_cons]
    simp [hdot, hd, hr, hnone]
  · intro hsome hmode
    rw [dir_count_cons]
    simp [hdot, hd, hr, hsome, hmode]

/-- C5 witness: a symlink-like entry (unknown type) among regular
entries, with a lookup that classifies it as a directory. -/
theorem c5_dir_read_unknown_types_witness :
    Dir_Read_stdio 3 10 [⟨"sym", DT_UNKNOWN⟩] =
      (R_SUCCESS, [⟨"sym", FsDirEntryType_File⟩])
    ∧ DirGetEntryCount_stdio 3 "/d" (fun _ => some LstatKind.dir)
        [⟨"sym", DT_UNKNOWN⟩] = (0, 1) := by
  have h := c5_dir_read_unknown_types 3 10 DT_UNKNOWN "sym" "/d"
    (fun _ => some LstatKind.dir) [⟨"sym", DT_UNKNOWN⟩] []
    (by decide) (by decide) (by decide)
  refine ⟨h.2.1, ?_⟩
  have h5 := h.2.2.2.2 rfl (by decide)
  rw [h5]
  decide

/-- Helper: a masked nibble's hex digit is one of the sixteen lowercase
hex characters. -/
theorem hexDigit_mem (m : Nat) (h : m ≤ 15) : hexDigit m ∈ hexChars := by
  interval_cases m <;> decide

/-- **C7** — the hash driving loop: the finalizer runs exactly once, and
only after the size query and the chunked transfer both succeed; a
failed or cancelled transfer is returned as-is (the cancellation error
when cancelled) with the finalizer never invoked and no output
produced; the CRC32 finalizer output is a fixed-width (8 character)
lowercase hexadecimal string. -/
theorem c7_hash_finalize_once (sizeRc ioRc e seed : Nat) (digest : String)
    (he : e ≠ R_SUCCESS) :
    Hash_run R_SUCCESS (thread_Transfer true ioRc) digest =
      ⟨Result_TransferCancelled, 0, none⟩
    ∧ Hash_run R_SUCCESS e digest = ⟨e, 0, none⟩
    ∧ (sizeRc ≠ R_SUCCESS → Hash_run sizeRc ioRc digest = ⟨sizeRc, 0, none⟩)
    ∧ Hash_run R_SUCCESS R_SUCCESS digest = ⟨R_SUCCESS, 1, some digest⟩
    ∧ Result_TransferCancelled ≠ R_SUCCESS
    ∧ (crcHexStr seed).toList.length = 8
    ∧ ∀ c ∈ (crcHexStr seed).toList, c ∈ hexChars := by
  refine ⟨?_, ?_, ?_, ?_, by decide, ?_, ?_⟩
  · simp [Hash_run, thread_Transfer, Result_TransferCancelled, R_SUCCESS]
  · simp [Hash_run, he]
  · intro hs
    simp [Hash_run, hs]
  · simp [Hash_run]
  · rfl
  · intro c hc
    have hb : ∀ b : Nat, ∀ x ∈ byteHex b, x ∈ hexChars := by
      intro b x hx
      simp only [byteHex, List.mem_cons, List.not_mem_nil, or_false] at hx
      rcases hx with hx | hx
      · rw [hx]
        exact hexDigit_mem _ Nat.and_le_right
      · rw [hx]
        exact hexDigit_mem _ Nat.and_le_right
    have : (crcHexStr seed).toList =
        byteHex ((seed >>> 24) &&& 0xFF) ++ byteHex ((seed >>> 16) &&& 0xFF)
          ++ byteHex ((seed >>> 8) &&& 0xFF) ++ byteHex (seed &&& 0xFF) := rfl
    rw [this] at hc
    simp only [List.mem_append] at hc
    rcases hc with ((hc | hc) | hc) | hc
    · exact hb _ c hc
    · exact hb _ c hc
    · exact hb _ c hc
    · exact hb _ c hc

/-- C7 witness: a cancelled transfer yields the cancellation error and
no finalization; a successful run finalizes once. -/
theorem c7_hash_finalize_once_witness :
    Hash_run R_SUCCESS (thread_Transfer true 0) "cafe" =
      ⟨Result_TransferCancelled, 0, none⟩
    ∧ Hash_run R_SUCCESS 77 "cafe" = ⟨77, 0, none⟩
    ∧ Hash_run R_SUCCESS R_SUCCESS "cafe" = ⟨R_SUCCESS, 1, some "cafe"⟩ := by
  have h := c7_hash_finalize_once 0 0 77 0 "cafe" (by decide)
  exact ⟨h.1, h.2.1, h.2.2.2.1⟩

/-- Helper: slash-splitting never yields an empty segment list. -/
theorem splitSlash_ne_nil (l : List Char) : splitSlash l ≠ [] := by
  induction l with
  | nil => simp [splitSlash]
  | cons c rest ih =>
    unfold splitSlash
    by_cases h : c = '/'
    · simp [h]
    · simp only [h, if_false, ite_false, if_neg]
      cases hs : splitSlash rest <;> simp

/-- Helper: the one-step equation of `splitSlash`. -/
theorem splitSlash_cons (c : Char) (rest : List Char) :
    splitSlash (c :: rest) =
      (if c = '/' then [] :: splitSlash rest
       else match splitSlash rest with
         | [] => [[c]]
         | s :: ss => (c :: s) :: ss) := rfl

/-- Helper: splitting distributes over a slash in the middle. -/
theorem splitSlash_append (a d : List Char) :
    splitSlash (a ++ '/' :: d) = splitSlash a ++ splitSlash d := by
  induction a with
  | nil => simp [splitSlash]
  | cons x a' ih =>
    simp only [List.cons_append, splitSlash_cons]
    by_cases h : x = '/'
    · rw [if_pos h, if_pos h, ih]
      simp
    · rw [if_neg h, if_neg h, ih]
      rcases hs : splitSlash a' with _ | ⟨s, ss⟩
      · exact absurd hs (splitSlash_ne_nil a')
      · simp [hs]

/-- Helper: a slash-free segment splits to itself. -/
theorem splitSlash_no_slash (c : List Char) (h : ∀ x ∈ c, x ≠ '/') :
    splitSlash c = [c] := by
  induction c with
  | nil => rfl
  | cons x c' ih =>
    unfold splitSlash
    have hx : ¬ x = '/' := h x (List.mem_cons_self x c')
    simp only [hx, if_false, ite_false, if_neg]
    rw [ih (fun y hy => h y (List.mem_cons_of_mem x hy))]

/-- Helper: every segment produced by slash-splitting is slash-free. -/
theorem splitSlash_mem_no_slash (l : List Char) :
    ∀ s ∈ splitSlash l, ∀ x ∈ s, x ≠ '/' := by
  induction l with
  | nil =>
    intro s hs
    unfold splitSlash at hs
    rcases List.mem_singleton.mp hs with rfl
    intro x hx
    cases hx
  | cons c rest ih =>
    intro s hs
    unfold splitSlash at hs
    by_cases h : c = '/'
    · rw [if_pos h] at hs
      rcases List.mem_cons.mp hs with rfl | hs
      · intro x hx; cases hx
      · exact ih s hs
    · rw [if_neg h] at hs
      rcases hsp : splitSlash rest with _ | ⟨s0, ss⟩
      · exact absurd hsp (splitSlash_ne_nil rest)
      · rw [hsp] at hs
        rcases List.mem_cons.mp hs with rfl | hs
        · intro x hx
          rcases List.mem_cons.mp hx with rfl | hx
          · exact h
          · exact ih s0 (hsp ▸ List.mem_cons_self s0 ss) x hx
        · exact ih s (hsp ▸ List.mem_cons_of_mem s0 hs)

/-- Helper: components of an empty path. -/
theorem comps_nil : comps [] = [] := rfl

/-- Helper: components distribute over a slash in the middle. -/
theorem comps_append_slash (a d : List Char) :
    comps (a ++ '/' :: d) = comps a ++ comps d := by
  unfold comps
  rw [splitSlash_append, List.filter_append]

/-- Helper: components of a path ending in a slash, extended by one
slash-free nonempty segment. -/
theorem comps_ends_slash (b c : List Char) (hb : ∃ b0, b = b0 ++ ['/'])
    (hc : c ≠ []) (hcs : ∀ x ∈ c, x ≠ '/') :
    comps (b ++ c) = comps b ++ [c]
    ∧ comps ((b ++ c) ++ ['/']) = comps b ++ [c] := by
  obtain ⟨b0, rfl⟩ := hb
  have hsc : comps c = [c] := by
    unfold comps
    rw [splitSlash_no_slash c hcs]
    simp [hc]
  have hb0 : comps (b0 ++ ['/']) = comps b0 := by
    have h : b0 ++ ['/'] = b0 ++ '/' :: [] := rfl
    rw [h, comps_append_slash, comps_nil, List.append_nil]
  constructor
  · have h : b0 ++ ['/'] ++ c = b0 ++ '/' :: c := by simp
    rw [h, comps_append_slash, hsc, hb0]
  · have h : (b0 ++ ['/'] ++ c) ++ ['/'] = b0 ++ '/' :: (c ++ '/' :: []) := by
      simp
    rw [h, comps_append_slash, comps_append_slash, comps_nil, hsc, hb0,
      List.append_nil]

/-- Helper: the unfolded form of the gated modelled `mkdir`. -/
theorem mkdirG_eq (ig : Bool) (S : DirState) (p : String) :
    mkdirG ig S p =
      (if (!ig && is_read_only_root p) = true then (Result_FsReadOnly, S)
       else if comps p.toList = [] then (FsError_PathAlreadyExists, S)
       else if comps p.toList ∈ S then (FsError_PathAlreadyExists, S)
       else if (comps p.toList).dropLast = [] ∨ (comps p.toList).dropLast ∈ S
         then (R_SUCCESS, comps p.toList :: S)
       else (Result_FsUnknownStdioError, S)) := rfl

/-- Helper: a successful modelled `mkdir` created exactly the path's
component form. -/
theorem mkdirG_success (ig : Bool) (S : DirState) (p : String)
    (h : (mkdirG ig S p).1 = R_SUCCESS) :
    (mkdirG ig S p).2 = comps p.toList :: S := by
  rw [mkdirG_eq] at h ⊢
  by_cases hg : (!ig && is_read_only_root p) = true
  · rw [if_pos hg] at h
    simp [Result_FsReadOnly, R_SUCCESS] at h
  · rw [if_neg hg] at h ⊢
    by_cases h1 : comps p.toList = []
    · rw [if_pos h1] at h
      simp [FsError_PathAlreadyExists, R_SUCCESS] at h
    · rw [if_neg h1] at h ⊢
      by_cases h2 : comps p.toList ∈ S
      · rw [if_pos h2] at h
        simp [FsError_PathAlreadyExists, R_SUCCESS] at h
      · rw [if_neg h2] at h ⊢
        by_cases h3 : (comps p.toList).dropLast = [] ∨
            (comps p.toList).dropLast ∈ S
        · rw [if_pos h3]
        · rw [if_neg h3] at h
          simp [Result_FsUnknownStdioError, R_SUCCESS] at h

/-- Helper: an "already exists" from the modelled `mkdir` leaves the
state unchanged, and the path (in component form) is the root or an
existing directory. -/
theorem mkdirG_ae (ig : Bool) (S : DirState) (p : String)
    (h : (mkdirG ig S p).1 = FsError_PathAlreadyExists) :
    (mkdirG ig S p).2 = S
    ∧ (comps p.toList = [] ∨ comps p.toList ∈ S) := by
  rw [mkdirG_eq] at h ⊢
  by_cases hg : (!ig && is_read_only_root p) = true
  · rw [if_pos hg] at h
    simp [Result_FsReadOnly, FsError_PathAlreadyExists] at h
  · rw [if_neg hg] at h ⊢
    by_cases h1 : comps p.toList = []
    · rw [if_pos h1]
      exact ⟨rfl, Or.inl h1⟩
    · rw [if_neg h1] at h ⊢
      by_cases h2 : comps p.toList ∈ S
      · rw [if_pos h2]
        exact ⟨rfl, Or.inr h2⟩
      · rw [if_neg h2] at h ⊢
        by_cases h3 : (comps p.toList).dropLast = [] ∨
            (comps p.toList).dropLast ∈ S
        · rw [if_pos h3] at h
          simp [R_SUCCESS, FsError_PathAlreadyExists] at h
        · rw [if_neg h3] at h
          simp [Result_FsUnknownStdioError, FsError_PathAlreadyExists] at h

/-- Helper: when the gate is down and the path is the root or already
exists, the gated `mkdir` reports "already exists" without change. -/
theorem mkdirG_exists (ig : Bool) (S : DirState) (p : String)
    (hg : (!ig && is_read_only_root p) = false)
    (h : comps p.toList = [] ∨ comps p.toList ∈ S) :
    mkdirG ig S p = (FsError_PathAlreadyExists, S) := by
  rw [mkdirG_eq]
  rw [hg]
  simp only [Bool.false_eq_true, if_false]
  rcases h with h | h
  · rw [if_pos h]
  · by_cases hnil : comps p.toList = []
    · rw [if_pos hnil]
    · rw [if_neg hnil, if_pos h]

/-- Helper: the empty-list equation of the creation loop. -/
theorem cdr_loop_nil {σ : Type} (mk : σ → String → Nat × σ)
    (built : List Char) (s : σ) :
    cdr_loop mk built [] s = (R_SUCCESS, s) := rfl

/-- Helper: the one-step equation of the creation loop. -/
theorem cdr_loop_cons {σ : Type} (mk : σ → String → Nat × σ)
    (built : List Char) (c : List Char) (rest : List (List Char)) (s : σ) :
    cdr_loop mk built (c :: rest) s =
      (if c = [] then cdr_loop mk built rest s
       else if (mk s (String.mk (built ++ c))).1 ≠ R_SUCCESS ∧
           (mk s (String.mk (built ++ c))).1 ≠ FsError_PathAlreadyExists then
         ((mk s (String.mk (built ++ c))).1, (mk s (String.mk (built ++ c))).2)
       else cdr_loop mk ((built ++ c) ++ ['/']) rest
         (mk s (String.mk (built ++ c))).2) := rfl

/-- Helper: the unfolded form of `CreateDirectoryRecursively_core`. -/
theorem cdr_core_eq {σ : Type} (mk : σ → String → Nat × σ) (ig : Bool)
    (s : σ) (p : String) :
    CreateDirectoryRecursively_core mk ig s p =
      (if (!ig && is_read_only_root p) = true then (Result_FsReadOnly, s)
       else if (mk s p).1 = R_SUCCESS ∨ (mk s p).1 = FsError_PathAlreadyExists
         then (R_SUCCESS, (mk s p).2)
       else cdr_loop mk (colon_split p.toList).1
         (splitSlash (colon_split p.toList).2) (mk s p).2) := rfl

/-- Helper: the one-step equation of `cumul_paths`. -/
theorem cumul_paths_cons (built c : List Char) (rest : List (List Char)) :
    cumul_paths built (c :: rest) =
      (if c = [] then cumul_paths built rest
       else String.mk (built ++ c) :: cumul_paths ((built ++ c) ++ ['/']) rest) := rfl

/-- Helper: the one-step equation of `first_failure`. -/
theorem first_failure_cons (oracle : String → Nat) (q : String)
    (rest : List String) :
    first_failure oracle (q :: rest) =
      (if oracle q ≠ R_SUCCESS ∧ oracle q ≠ FsError_PathAlreadyExists then
        oracle q
      else first_failure oracle rest) := rfl

/-- Helper: a colon-free path has no drive marker. -/
theorem colon_split_no_colon (cs : List Char) (h : ':' ∉ cs) :
    colon_split cs = (['/'], cs) := by
  unfold colon_split
  suffices hs : colon_idx cs = none by rw [hs]
  induction cs with
  | nil => rfl
  | cons c rest ih =>
    unfold colon_idx
    have hc : ¬ c = ':' := fun hc => h (hc ▸ List.mem_cons_self c rest)
    rw [if_neg hc, ih (fun hm => h (List.mem_cons_of_mem c hm))]
    rfl

/-- Helper: a failed (neither success nor "already exists") gated
`mkdir` with the gate down leaves the state unchanged, and the path is
not the root. -/
theorem mkdirG_err_state (ig : Bool) (S : DirState) (p : String)
    (hg : (!ig && is_read_only_root p) = false)
    (h : ¬((mkdirG ig S p).1 = R_SUCCESS ∨
           (mkdirG ig S p).1 = FsError_PathAlreadyExists)) :
    (mkdirG ig S p).2 = S ∧ comps p.toList ≠ [] := by
  rw [mkdirG_eq] at h ⊢
  rw [hg] at h ⊢
  simp only [Bool.false_eq_true, if_false] at h ⊢
  by_cases h1 : comps p.toList = []
  · rw [if_pos h1] at h
    simp at h
  · rw [if_neg h1] at h ⊢
    by_cases h2 : comps p.toList ∈ S
    · rw [if_pos h2] at h
      simp at h
    · rw [if_neg h2] at h ⊢
      by_cases h3 : (comps p.toList).dropLast = [] ∨
          (comps p.toList).dropLast ∈ S
      · rw [if_pos h3] at h
        simp at h
      · rw [if_neg h3]
        exact ⟨rfl, h1⟩

/-- Helper: a successful run of the creation loop over the modelled
filesystem only grows the state, and (when at least one nonempty
segment was walked) ends with the full walked path present. -/
theorem cdr_loop_fs (ig : Bool) :
    ∀ (M : List (List Char)), (∀ c ∈ M, ∀ x ∈ c, x ≠ '/') →
      ∀ (built : List Char) (S S' : DirState), (∃ b, built = b ++ ['/']) →
      cdr_loop (mkdirG ig) built M S = (R_SUCCESS, S') →
      (∀ x ∈ S, x ∈ S') ∧
      (M.filter (fun c => c ≠ []) ≠ [] →
        comps built ++ M.filter (fun c => c ≠ []) ∈ S') := by
  intro M
  induction M with
  | nil =>
    intro _ built S S' _ h
    rw [cdr_loop_nil] at h
    injection h with _ h2
    exact ⟨fun x hx => h2 ▸ hx, by simp⟩
  | cons c rest ih =>
    intro hM built S S' hb h
    rw [cdr_loop_cons] at h
    by_cases hc : c = []
    · rw [if_pos hc] at h
      have hMr : ∀ c' ∈ rest, ∀ x ∈ c', x ≠ '/' :=
        fun c' hc' => hM c' (List.mem_cons_of_mem c hc')
      obtain ⟨hsub, h3⟩ := ih hMr built S S' hb h
      refine ⟨hsub, ?_⟩
      have hfe : (c :: rest).filter (fun c => c ≠ []) =
          rest.filter (fun c => c ≠ []) := by
        simp [hc]
      rw [hfe]
      exact h3
    · rw [if_neg hc] at h
      by_cases herr : (mkdirG ig S (String.mk (built ++ c))).1 ≠ R_SUCCESS ∧
          (mkdirG ig S (String.mk (built ++ c))).1 ≠ FsError_PathAlreadyExists
      · rw [if_pos herr] at h
        injection h with h1 _
        exact absurd h1 herr.1
      · rw [if_neg herr] at h
        push_neg at herr
        have hcase : (mkdirG ig S (String.mk (built ++ c))).1 = R_SUCCESS ∨
            (mkdirG ig S (String.mk (built ++ c))).1 =
              FsError_PathAlreadyExists := by
          by_cases h0 : (mkdirG ig S (String.mk (built ++ c))).1 = R_SUCCESS
          · exact Or.inl h0
          · exact Or.inr (herr h0)
        have hMr : ∀ c' ∈ rest, ∀ x ∈ c', x ≠ '/' :=
          fun c' hc' => hM c' (List.mem_cons_of_mem c hc')
        have hb' : ∃ b, (built ++ c) ++ ['/'] = b ++ ['/'] := ⟨built ++ c, rfl⟩
        obtain ⟨hsub', h3'⟩ :=
          ih hMr ((built ++ c) ++ ['/']) (mkdirG ig S (String.mk (built ++ c))).2
            S' hb' h
        have hcs : ∀ x ∈ c, x ≠ '/' := hM c (List.mem_cons_self c rest)
        have hce := comps_ends_slash built c hb hc hcs
        have htl : comps (String.mk (built ++ c)).toList =
            comps built ++ [c] := hce.1
        have hkey : comps built ++ [c] ∈ S' := by
          rcases hcase with h0 | hae
          · apply hsub'
            rw [mkdirG_success ig S _ h0, htl]
            exact List.mem_cons_self _ _
          · obtain ⟨hst, hin⟩ := mkdirG_ae ig S _ hae
            rcases hin with hnil | hin
            · rw [htl] at hnil
              simp at hnil
            · apply hsub'
              rw [hst]
              rw [htl] at hin
              exact hin
        have hsub : ∀ x ∈ S, x ∈ S' := by
          intro x hx
          apply hsub'
          rcases hcase with h0 | hae
          · rw [mkdirG_success ig S _ h0]
            exact List.mem_cons_of_mem _ hx
          · rw [(mkdirG_ae ig S _ hae).1]
            exact hx
        refine ⟨hsub, ?_⟩
        intro _
        have hfe : (c :: rest).filter (fun c => c ≠ []) =
            c :: rest.filter (fun c => c ≠ []) := by
          simp [hc]
        rw [hfe]
        by_cases hrn : rest.filter (fun c => c ≠ []) = []
        · rw [hrn]
          exact hkey
        · have hlast := h3' hrn
          rw [hce.2] at hlast
          have hassoc : comps built ++ [c] ++ rest.filter (fun c => c ≠ []) =
              comps built ++ c :: rest.filter (fun c => c ≠ []) := by
            simp
          rw [hassoc] at hlast
          exact hlast

/-- Helper: the creation loop over a stateless result oracle computes
exactly the first non-success, non-"already exists" result along the
cumulative segment paths. -/
theorem cdr_loop_oracle (oracle : String → Nat) (M : List (List Char)) :
    ∀ built, (cdr_loop (mk_oracle oracle) built M ()).1 =
      first_failure oracle (cumul_paths built M) := by
  induction M with
  | nil => intro built; rfl
  | cons c rest ih =>
    intro built
    rw [cdr_loop_cons, cumul_paths_cons]
    by_cases hc : c = []
    · rw [if_pos hc, if_pos hc]
      exact ih built
    · rw [if_neg hc, if_neg hc, first_failure_cons]
      dsimp only [mk_oracle]
      split
      · rfl
      · exact ih _

/-- **C6** — `CreateDirectoryRecursively`: on an empty root,
`"/a/b/c"` creates exactly the directories `/a`, `/a/b`, `/a/b/c` (in
that order); a successful call on a drive-marker-free path is
idempotent — the second call succeeds and leaves the directory tree
unchanged; and over an arbitrary result oracle the walk returns success
exactly when the full-path attempt or every segment yields success or
"already exists", aborting with the first other per-segment failure. -/
theorem c6_create_dir_recursively (ig : Bool) (S : DirState) (p p2 : String)
    (oracle : String → Nat)
    (hcolon : ':' ∉ p.toList)
    (hsucc : (cdRecFS ig S p).1 = R_SUCCESS) :
    cdRecFS false [] "/a/b/c" =
      (R_SUCCESS, [[['a'], ['b'], ['c']], [['a'], ['b']], [['a']]])
    ∧ cdRecFS ig (cdRecFS ig S p).2 p = (R_SUCCESS, (cdRecFS ig S p).2)
    ∧ (CreateDirectoryRecursively_core (mk_oracle oracle) true () p2).1 =
        spec_walk oracle p2 := by
  refine ⟨by decide, ?_, ?_⟩
  · have hgate : (!ig && is_read_only_root p) = false := by
      by_cases hg : (!ig && is_read_only_root p) = true
      · unfold cdRecFS at hsucc
        rw [cdr_core_eq, if_pos hg] at hsucc
        simp [Result_FsReadOnly, R_SUCCESS] at hsucc
      · exact Bool.eq_false_iff.mpr hg
    by_cases hat : (mkdirG ig S p).1 = R_SUCCESS ∨
        (mkdirG ig S p).1 = FsError_PathAlreadyExists
    · have hrun : cdRecFS ig S p = (R_SUCCESS, (mkdirG ig S p).2) := by
        unfold cdRecFS
        rw [cdr_core_eq, hgate]
        simp only [Bool.false_eq_true, if_false]
        rw [if_pos hat]
      have hmem : comps p.toList = [] ∨ comps p.toList ∈ (mkdirG ig S p).2 := by
        rcases hat with h0 | hae
        · rw [mkdirG_success ig S p h0]
          exact Or.inr (List.mem_cons_self _ _)
        · rcases (mkdirG_ae ig S p hae).2 with h | h
          · exact Or.inl h
          · rw [(mkdirG_ae ig S p hae).1]
            exact Or.inr h
      rw [hrun]
      show cdRecFS ig (mkdirG ig S p).2 p = (R_SUCCESS, (mkdirG ig S p).2)
      unfold cdRecFS
      rw [cdr_core_eq, hgate]
      simp only [Bool.false_eq_true, if_false]
      rw [mkdirG_exists ig _ p hgate hmem]
      simp [FsError_PathAlreadyExists, R_SUCCESS]
    · obtain ⟨hst, hcne⟩ := mkdirG_err_state ig S p hgate hat
      have hrun : cdRecFS ig S p =
          cdr_loop (mkdirG ig) ['/'] (splitSlash p.toList) S := by
        unfold cdRecFS
        rw [cdr_core_eq, hgate]
        simp only [Bool.false_eq_true, if_false]
        rw [if_neg hat, hst, colon_split_no_colon p.toList hcolon]
      rcases hres : cdr_loop (mkdirG ig) ['/'] (splitSlash p.toList) S
        with ⟨rc, S'⟩
      have h0 : rc = R_SUCCESS := by
        rw [hrun, hres] at hsucc
        exact hsucc
      subst h0
      obtain ⟨hsub, h3⟩ := cdr_loop_fs ig (splitSlash p.toList)
        (splitSlash_mem_no_slash p.toList) ['/'] S S' ⟨[], rfl⟩ hres
      have hfil : (splitSlash p.toList).filter (fun c => c ≠ []) =
          comps p.toList := rfl
      have hin : comps p.toList ∈ S' := by
        have hsole := h3 (by rw [hfil]; exact hcne)
        rw [hfil] at hsole
        simpa [show comps ['/'] = [] from rfl] using hsole
      rw [hrun, hres]
      show cdRecFS ig S' p = (R_SUCCESS, S')
      unfold cdRecFS
      rw [cdr_core_eq, hgate]
      simp only [Bool.false_eq_true, if_false]
      rw [mkdirG_exists ig S' p hgate (Or.inr hin)]
      simp [FsError_PathAlreadyExists, R_SUCCESS]
  · rw [cdr_core_eq]
    simp only [Bool.not_true, Bool.false_and, Bool.false_eq_true, if_false]
    unfold spec_walk
    dsimp only [mk_oracle]
    split
    · rfl
    · exact cdr_loop_oracle oracle (splitSlash (colon_split p2.toList).2)
        (colon_split p2.toList).1

/-- C6 witness: creating `/a/b/c` on the empty tree and calling again on
the resulting tree. -/
theorem c6_create_dir_recursively_witness :
    cdRecFS false (cdRecFS false [] "/a/b/c").2 "/a/b/c" =
      (R_SUCCESS, (cdRecFS false [] "/a/b/c").2) := by
  have h := c6_create_dir_recursively false [] "/a/b/c" "/a/b/c"
    (fun _ => R_SUCCESS) (by decide) (by decide)
  exact h.2.1

/-- Helper: the prefix-mode characterization of the root predicate. -/
theorem ro_root_iff (p : String) :
    is_read_only_root p = true ↔
      ∃ e ∈ READONLY_ROOT_FOLDERS, List.IsPrefix e.toList p.toList := by
  simp [is_read_only_root, starts_with, List.any_eq_true,
    List.isPrefixOf_iff_prefix]

/-- Helper: an unprotected path has unprotected take-prefixes (a deny
entry heading the shortened path would head the full path too). -/
theorem ro_root_take (p : String) (i : Nat)
    (hp : is_read_only_root p = false) :
    is_read_only_root (String.mk (p.toList.take i)) = false := by
  apply Bool.eq_false_iff.mpr
  intro htrue
  apply Bool.eq_false_iff.mp hp
  obtain ⟨e, he, hpre⟩ := (ro_root_iff _).mp htrue
  apply (ro_root_iff p).mpr
  refine ⟨e, he, ?_⟩
  have htake : List.IsPrefix (p.toList.take i) p.toList := List.take_prefix i _
  exact List.IsPrefix.trans hpre htake

/-- Helper: the walk's state (a call trace here) only ever grows. -/
theorem cdr_loop_extends (mk : List Call → String → Nat × List Call)
    (hmk : ∀ s q, ∃ t, (mk s q).2 = s ++ t) :
    ∀ (M : List (List Char)) (built : List Char) (s : List Call),
      ∃ t, (cdr_loop mk built M s).2 = s ++ t := by
  intro M
  induction M with
  | nil =>
    intro built s
    exact ⟨[], by simp [cdr_loop_nil]⟩
  | cons c rest ih =>
    intro built s
    rw [cdr_loop_cons]
    by_cases hc : c = []
    · rw [if_pos hc]
      exact ih built s
    · rw [if_neg hc]
      obtain ⟨t1, ht1⟩ := hmk s (String.mk (built ++ c))
      split
    -- abort after this call: its state already extends s
      · exact ⟨t1, ht1⟩
      · obtain ⟨t2, ht2⟩ :=
          ih ((built ++ c) ++ ['/']) (mk s (String.mk (built ++ c))).2
        exact ⟨t1 ++ t2, by rw [ht2, ht1, List.append_assoc]⟩

/-- Helper: with the gate down, the recursive creation cannot produce
the blocked outcome (read-only error with an empty trace): either it
succeeds, or its trace contains at least the first attempt's calls. -/
theorem rec_core_f_not_blocked (f : String → Nat × List Call) (ig : Bool)
    (p : String) (hg : (!ig && is_read_only_root p) = false)
    (hne : (f p).2 ≠ []) :
    CreateDirectoryRecursively_core (mk_of f) ig [] p ≠
      (Result_FsReadOnly, []) := by
  rw [cdr_core_eq, hg]
  simp only [Bool.false_eq_true, if_false]
  split
  · intro h
    injection h with h1 _
    exact absurd h1 (by decide)
  · intro h
    have h2 := congrArg Prod.snd h
    dsimp only at h2
    obtain ⟨t, ht⟩ := cdr_loop_extends (mk_of f)
      (fun s q => ⟨(f q).2, rfl⟩) (splitSlash (colon_split p.toList).2)
      (colon_split p.toList).1 (mk_of f [] p).2
    rw [ht] at h2
    rcases List.append_eq_nil.mp h2 with ⟨ha, -⟩
    exact hne (by simpa [mk_of] using ha)

/-- Helper: the unfolded form of the directory-chain-for-a-file
creation. -/
theorem cdrwp_core_eq {σ : Type} (mk : σ → String → Nat × σ) (ig : Bool)
    (s : σ) (p : String) :
    CreateDirectoryRecursivelyWithPath_core mk ig s p =
      (if (!ig && is_read_only_root p) = true then (Result_FsReadOnly, s)
       else
         match last_slash_idx p.toList with
         | none => (R_SUCCESS, s)
         | some i =>
           CreateDirectoryRecursively_core mk ig s
             (String.mk (p.toList.take i))) := rfl

/-- Helper: a simple policy-gated operation yields the blocked outcome
(read-only error, empty trace) exactly when its gate condition holds,
provided its body always performs at least one call. -/
theorem gated_blocked_iff (cond : Bool) (body : Nat × List Call)
    (hne : body.2 ≠ []) :
    ((if cond = true then (Result_FsReadOnly, ([] : List Call)) else body) =
        (Result_FsReadOnly, [])) ↔ cond = true := by
  constructor
  · intro h
    by_cases hc : cond = true
    · exact hc
    · rw [if_neg hc] at h
      exact absurd (congrArg Prod.snd h).symm (fun hx => hne hx.symm)
  · intro h
    rw [if_pos h]

/-- Helper: the two-gate (rename) version of `gated_blocked_iff`. -/
theorem gated2_blocked_iff (c1 c2 : Bool) (body : Nat × List Call)
    (hne : body.2 ≠ []) :
    ((if c1 = true then (Result_FsReadOnly, ([] : List Call))
      else if c2 = true then (Result_FsReadOnly, []) else body) =
        (Result_FsReadOnly, [])) ↔ (c1 = true ∨ c2 = true) := by
  constructor
  · intro h
    by_cases h1 : c1 = true
    · exact Or.inl h1
    · rw [if_neg h1] at h
      by_cases h2 : c2 = true
      · exact Or.inr h2
      · rw [if_neg h2] at h
        exact absurd (congrArg Prod.snd h).symm (fun hx => hne hx.symm)
  · intro h
    rcases h with h | h
    · rw [if_pos h]
    · by_cases h1 : c1 = true
      · rw [if_pos h1]
      · rw [if_neg h1, if_pos h]

/-- Helper: the native create-file body always calls the backend. -/
theorem CreateFile_native_go_trace (b : NativeBackend) (p : String)
    (size opt : Nat) : (CreateFile_native_go b p size opt).2 ≠ [] := by
  unfold CreateFile_native_go
  dsimp only
  split <;> simp

/-- Helper: the native create-directory body always calls the backend. -/
theorem CreateDirectory_native_go_trace (b : NativeBackend) (p : String) :
    (CreateDirectory_native_go b p).2 ≠ [] := by
  unfold CreateDirectory_native_go
  dsimp only
  split <;> simp

/-- Helper: the native delete-file body always calls the backend. -/
theorem DeleteFile_native_go_trace (b : NativeBackend) (p : String) :
    (DeleteFile_native_go b p).2 ≠ [] := by
  unfold DeleteFile_native_go
  dsimp only
  split <;> simp

/-- Helper: the native delete-directory body always calls the backend. -/
theorem DeleteDirectory_native_go_trace (b : NativeBackend) (p : String) :
    (DeleteDirectory_native_go b p).2 ≠ [] := by
  unfold DeleteDirectory_native_go
  dsimp only
  split <;> simp

/-- Helper: the native recursive-delete body always calls the backend. -/
theorem DeleteDirectoryRecursively_native_go_trace (b : NativeBackend)
    (p : String) : (DeleteDirectoryRecursively_native_go b p).2 ≠ [] := by
  unfold DeleteDirectoryRecursively_native_go
  dsimp only
  split <;> simp

/-- Helper: the native rename-file body always calls the backend. -/
theorem RenameFile_native_go_trace (b : NativeBackend) (src dst : String) :
    (RenameFile_native_go b src dst).2 ≠ [] := by
  unfold RenameFile_native_go
  dsimp only
  split <;> simp

/-- Helper: the native rename-directory body always calls the backend. -/
theorem RenameDirectory_native_go_trace (b : NativeBackend) (src dst : String) :
    (RenameDirectory_native_go b src dst).2 ≠ [] := by
  unfold RenameDirectory_native_go
  dsimp only
  split <;> simp

/-- Helper: the stdio create-file body always calls the backend. -/
theorem CreateFile_stdio_go_trace (b : StdioBackend) (p : String)
    (size : Nat) : (CreateFile_stdio_go b p size).2 ≠ [] := by
  unfold CreateFile_stdio_go
  split <;> split <;> simp
  try split <;> simp

/-- Helper: the stdio create-directory body always calls the backend. -/
theorem CreateDirectory_stdio_go_trace (b : StdioBackend) (p : String) :
    (CreateDirectory_stdio_go b p).2 ≠ [] := by
  unfold CreateDirectory_stdio_go
  split
  · split <;> simp
  · simp

/-- Helper: the stdio delete-file body always calls the backend. -/
theorem DeleteFile_stdio_go_trace (b : StdioBackend) (p : String) :
    (DeleteFile_stdio_go b p).2 ≠ [] := by
  unfold DeleteFile_stdio_go
  split <;> simp

/-- Helper: the stdio delete-directory body always calls the backend. -/
theorem DeleteDirectory_stdio_go_trace (b : StdioBackend) (p : String) :
    (DeleteDirectory_stdio_go b p).2 ≠ [] := by
  unfold DeleteDirectory_stdio_go
  split <;> simp

/-- Helper: the stdio recursive-delete body always calls the helper. -/
theorem DeleteDirectoryRecursively_stdio_go_trace (b : StdioBackend)
    (p : String) : (DeleteDirectoryRecursively_stdio_go b p).2 ≠ [] := by
  unfold DeleteDirectoryRecursively_stdio_go
  split <;> simp

/-- Helper: the stdio rename body always calls the backend. -/
theorem RenameFile_stdio_go_trace (b : StdioBackend) (src dst : String) :
    (RenameFile_stdio_go b src dst).2 ≠ [] := by
  unfold RenameFile_stdio_go
  split <;> simp

/-- Helper: stdio directory rename is delegated to file rename, gates
included. -/
theorem RenameDirectory_stdio_eq (bs : StdioBackend) (src dst : String)
    (ig : Bool) :
    RenameDirectory_stdio bs src dst ig = RenameFile_stdio bs src dst ig := by
  unfold RenameDirectory_stdio RenameFile_stdio
  by_cases h1 : (!ig && is_read_only src) = true
  · rw [if_pos h1, if_pos h1]
  · rw [if_neg h1, if_neg h1]
    by_cases h2 : (!ig && is_read_only dst) = true
    · rw [if_pos h2, if_pos h2]
    · rw [if_neg h2, if_neg h2]

/-- **C2** — the protection predicate has two modes combined as a
disjunction: prefix matching against the fixed root deny-list and exact
matching against the fixed path deny-list; the creation operations are
blocked (read-only error, no backend call) exactly by the prefix list,
while deletion and rename are blocked exactly by the combined
predicate (rename on either of its two paths). -/
theorem c2_policy_modes (bn : NativeBackend) (bs : StdioBackend)
    (p src dst : String) (size opt : Nat) :
    is_read_only p = (is_read_only_root p || is_read_only_file p)
    ∧ (is_read_only_root p = true ↔
        ∃ e ∈ READONLY_ROOT_FOLDERS, List.IsPrefix e.toList p.toList)
    ∧ (is_read_only_file p = true ↔ p ∈ READONLY_FILES)
    ∧ (CreateFile_native bn p size opt false = (Result_FsReadOnly, []) ↔
        is_read_only_root p = true)
    ∧ (CreateFile_stdio bs p size opt false = (Result_FsReadOnly, []) ↔
        is_read_only_root p = true)
    ∧ (CreateDirectory_native bn p false = (Result_FsReadOnly, []) ↔
        is_read_only_root p = true)
    ∧ (CreateDirectory_stdio bs p false = (Result_FsReadOnly, []) ↔
        is_read_only_root p = true)
    ∧ (CreateDirectoryRecursively_native bn p false = (Result_FsReadOnly, []) ↔
        is_read_only_root p = true)
    ∧ (CreateDirectoryRecursively_stdio bs p false = (Result_FsReadOnly, []) ↔
        is_read_only_root p = true)
    ∧ (CreateDirectoryRecursivelyWithPath_native bn p false =
        (Result_FsReadOnly, []) ↔ is_read_only_root p = true)
    ∧ (CreateDirectoryRecursivelyWithPath_stdio bs p false =
        (Result_FsReadOnly, []) ↔ is_read_only_root p = true)
    ∧ (DeleteFile_native bn p false = (Result_FsReadOnly, []) ↔
        is_read_only p = true)
    ∧ (DeleteFile_stdio bs p false = (Result_FsReadOnly, []) ↔
        is_read_only p = true)
    ∧ (DeleteDirectory_native bn p false = (Result_FsReadOnly, []) ↔
        is_read_only p = true)
    ∧ (DeleteDirectory_stdio bs p false = (Result_FsReadOnly, []) ↔
        is_read_only p = true)
    ∧ (DeleteDirectoryRecursively_native bn p false = (Result_FsReadOnly, []) ↔
        is_read_only p = true)
    ∧ (DeleteDirectoryRecursively_stdio bs p false = (Result_FsReadOnly, []) ↔
        is_read_only p = true)
    ∧ (RenameFile_native bn src dst false = (Result_FsReadOnly, []) ↔
        (is_read_only src = true ∨ is_read_only dst = true))
    ∧ (RenameFile_stdio bs src dst false = (Result_FsReadOnly, []) ↔
        (is_read_only src = true ∨ is_read_only dst = true))
    ∧ (RenameDirectory_native bn src dst false = (Result_FsReadOnly, []) ↔
        (is_read_only src = true ∨ is_read_only dst = true))
    ∧ (RenameDirectory_stdio bs src dst false = (Result_FsReadOnly, []) ↔
        (is_read_only src = true ∨ is_read_only dst = true)) := by
  refine ⟨?_, ro_root_iff p, ?_, ?_, ?_, ?_, ?_, ?_, ?_, ?_, ?_, ?_, ?_,
    ?_, ?_, ?_, ?_, ?_, ?_, ?_, ?_⟩
  · unfold is_read_only
    cases h : is_read_only_root p <;> simp [h]
  · simp only [is_read_only_file, List.any_eq_true, beq_iff_eq]
    constructor
    · rintro ⟨e, he, hq⟩
      have he2 : p = e := String.ext hq
      rwa [he2]
    · intro h
      exact ⟨p, h, rfl⟩
  · simpa [CreateFile_native] using gated_blocked_iff
      (!false && is_read_only_root p) (CreateFile_native_go bn p size opt)
      (CreateFile_native_go_trace bn p size opt)
  · simpa [CreateFile_stdio] using gated_blocked_iff
      (!false && is_read_only_root p) (CreateFile_stdio_go bs p size)
      (CreateFile_stdio_go_trace bs p size)
  · simpa [CreateDirectory_native] using gated_blocked_iff
      (!false && is_read_only_root p) (CreateDirectory_native_go bn p)
      (CreateDirectory_native_go_trace bn p)
  · simpa [CreateDirectory_stdio] using gated_blocked_iff
      (!false && is_read_only_root p) (CreateDirectory_stdio_go bs p)
      (CreateDirectory_stdio_go_trace bs p)
  · constructor
    · intro h
      by_cases hp : is_read_only_root p = true
      · exact hp
      · exfalso
        have hproot : is_read_only_root p = false := Bool.eq_false_iff.mpr hp
        have hcong : CreateDirectoryRecursively_native bn p false =
            CreateDirectoryRecursively_core
              (mk_of (fun q => CreateDirectory_native bn q false))
              false [] p :=
          cdr_core_congr _ _ (fun s q => rfl) _ _ _
        rw [hcong] at h
        refine rec_core_f_not_blocked _ false p (by simp [hproot]) ?_ h
        have hCD : CreateDirectory_native bn p false =
            CreateDirectory_native_go bn p := by
          unfold CreateDirectory_native
          rw [if_neg (by simp [hproot])]
        rw [hCD]
        exact CreateDirectory_native_go_trace bn p
    · intro hp
      unfold CreateDirectoryRecursively_native
      rw [cdr_core_eq, if_pos (by simp [hp])]
  · constructor
    · intro h
      by_cases hp : is_read_only_root p = true
      · exact hp
      · exfalso
        have hproot : is_read_only_root p = false := Bool.eq_false_iff.mpr hp
        unfold CreateDirectoryRecursively_stdio at h
        rw [if_neg (by simp [hproot])] at h
        have hcong : CreateDirectoryRecursively_core (mk_stdio bs false)
            false [] p = CreateDirectoryRecursively_core
              (mk_of (fun q => CreateDirectory_stdio bs q false))
              false [] p :=
          cdr_core_congr _ _ (fun s q => rfl) _ _ _
        rw [hcong] at h
        refine rec_core_f_not_blocked _ false p (by simp [hproot]) ?_ h
        have hCD : CreateDirectory_stdio bs p false =
            CreateDirectory_stdio_go bs p := by
          unfold CreateDirectory_stdio
          rw [if_neg (by simp [hproot])]
        rw [hCD]
        exact CreateDirectory_stdio_go_trace bs p
    · intro hp
      unfold CreateDirectoryRecursively_stdio
      rw [if_pos (by simp [hp])]
  · constructor
    · intro h
      by_cases hp : is_read_only_root p = true
      · exact hp
      · exfalso
        have hproot : is_read_only_root p = false := Bool.eq_false_iff.mpr hp
        unfold CreateDirectoryRecursivelyWithPath_native at h
        rw [cdrwp_core_eq, if_neg (by simp [hproot])] at h
        rcases hls : last_slash_idx p.toList with _ | i
        · rw [hls] at h
          dsimp only at h
          injection h with h1 _
          exact absurd h1 (by decide)
        · rw [hls] at h
          dsimp only at h
          have hp' : is_read_only_root (String.mk (p.toList.take i)) = false :=
            ro_root_take p i hproot
          have hcong : CreateDirectoryRecursively_core (mk_native bn false)
              false [] (String.mk (p.toList.take i)) =
              CreateDirectoryRecursively_core
                (mk_of (fun q => CreateDirectory_native bn q false))
                false [] (String.mk (p.toList.take i)) :=
            cdr_core_congr _ _ (fun s q => rfl) _ _ _
          rw [hcong] at h
          refine rec_core_f_not_blocked _ false _ (by simpa using hp') ?_ h
          have hCD : CreateDirectory_native bn (String.mk (p.toList.take i))
              false = CreateDirectory_native_go bn
                (String.mk (p.toList.take i)) := by
            unfold CreateDirectory_native
            rw [if_neg (by simpa using hp')]
          rw [hCD]
          exact CreateDirectory_native_go_trace bn _
    · intro hp
      unfold CreateDirectoryRecursivelyWithPath_native
      rw [cdrwp_core_eq, if_pos (by simp [hp])]
  · constructor
    · intro h
      by_cases hp : is_read_only_root p = true
      · exact hp
      · exfalso
        have hproot : is_read_only_root p = false := Bool.eq_false_iff.mpr hp
        unfold CreateDirectoryRecursivelyWithPath_stdio at h
        rw [if_neg (by simp [hproot])] at h
        rw [cdrwp_core_eq, if_neg (by simp [hproot])] at h
        rcases hls : last_slash_idx p.toList with _ | i
        · rw [hls] at h
          dsimp only at h
          injection h with h1 _
          exact absurd h1 (by decide)
        · rw [hls] at h
          dsimp only at h
          have hp' : is_read_only_root (String.mk (p.toList.take i)) = false :=
            ro_root_take p i hproot
          have hcong : CreateDirectoryRecursively_core (mk_stdio bs false)
              false [] (String.mk (p.toList.take i)) =
              CreateDirectoryRecursively_core
                (mk_of (fun q => CreateDirectory_stdio bs q false))
                false [] (String.mk (p.toList.take i)) :=
            cdr_core_congr _ _ (fun s q => rfl) _ _ _
          rw [hcong] at h
          refine rec_core_f_not_blocked _ false _ (by simpa using hp') ?_ h
          have hCD : CreateDirectory_stdio bs (String.mk (p.toList.take i))
              false = CreateDirectory_stdio_go bs
                (String.mk (p.toList.take i)) := by
            unfold CreateDirectory_stdio
            rw [if_neg (by simpa using hp')]
          rw [hCD]
          exact CreateDirectory_stdio_go_trace bs _
    · intro hp
      unfold CreateDirectoryRecursivelyWithPath_stdio
      rw [if_pos (by simp [hp])]
  · simpa [DeleteFile_native] using gated_blocked_iff
      (!false && is_read_only p) (DeleteFile_native_go bn p)
      (DeleteFile_native_go_trace bn p)
  · simpa [DeleteFile_stdio] using gated_blocked_iff
      (!false && is_read_only p) (DeleteFile_stdio_go bs p)
      (DeleteFile_stdio_go_trace bs p)
  · simpa [DeleteDirectory_native] using gated_blocked_iff
      (!false && is_read_only p) (DeleteDirectory_native_go bn p)
      (DeleteDirectory_native_go_trace bn p)
  · simpa [DeleteDirectory_stdio] using gated_blocked_iff
      (!false && is_read_only p) (DeleteDirectory_stdio_go bs p)
      (DeleteDirectory_stdio_go_trace bs p)
  · simpa [DeleteDirectoryRecursively_native] using gated_blocked_iff
      (!false && is_read_only p) (DeleteDirectoryRecursively_native_go bn p)
      (DeleteDirectoryRecursively_native_go_trace bn p)
  · simpa [DeleteDirectoryRecursively_stdio] using gated_blocked_iff
      (!false && is_read_only p) (DeleteDirectoryRecursively_stdio_go bs p)
      (DeleteDirectoryRecursively_stdio_go_trace bs p)
  · simpa [RenameFile_native] using gated2_blocked_iff
      (!false && is_read_only src) (!false && is_read_only dst)
      (RenameFile_native_go bn src dst)
      (RenameFile_native_go_trace bn src dst)
  · simpa [RenameFile_stdio] using gated2_blocked_iff
      (!false && is_read_only src) (!false && is_read_only dst)
      (RenameFile_stdio_go bs src dst)
      (RenameFile_stdio_go_trace bs src dst)
  · simpa [RenameDirectory_native] using gated2_blocked_iff
      (!false && is_read_only src) (!false && is_read_only dst)
      (RenameDirectory_native_go bn src dst)
      (RenameDirectory_native_go_trace bn src dst)
  · rw [RenameDirectory_stdio_eq]
    simpa [RenameFile_stdio] using gated2_blocked_iff
      (!false && is_read_only src) (!false && is_read_only dst)
      (RenameFile_stdio_go bs src dst)
      (RenameFile_stdio_go_trace bs src dst)
